import Mathlib

/-!
Verification of the knowledge-base generation/governance core
(`src/generation/` together with the table definitions in `src/db/models.py`
and the SQLite migration in `src/db/__init__.py`).

The Python modules are shallowly embedded:

* rows of the SQLAlchemy tables become Lean structures;
* a `Session` bound to the database becomes an explicit `Db` record of row
  lists that every operation threads through;
* `datetime.utcnow()` becomes an explicit `now : Nat` argument and
  `uuid.uuid4()` an explicit counter (`Db.next_uuid`) rendered by `freshUuid`;
* a function that can raise (`ValueError`, SQLite integrity errors) returns
  `Except String …`; an error before `session.commit()` leaves the store
  unchanged, which the embedding reflects by not returning a store on error;
* the optional OpenAI collaborator is an oracle parameter
  (`Option RlmCollab`, `LlmCollab`, …): `none`/returning `none` covers the
  unavailable / exception / unusable-output branches;
* Python `str.strip` / `str.lower` / `re` patterns are implemented over
  `List Char` (`pyStrip`, `pyLower`, `findTokens`, …) so that everything
  evaluates inside the kernel; `\w` of `re` is taken over ASCII.
-/

/-- Python `c.isspace()` for the characters `str.strip` removes
(ASCII whitespace suffices for the data handled here). -/
def isWsChar (c : Char) : Bool :=
  c = ' ' || c = '\t' || c = '\n' || c = '\r' || c = '\x0b' || c = '\x0c'

/-- Python `str.strip()` on the underlying character list. -/
def stripChars (l : List Char) : List Char :=
  ((l.dropWhile isWsChar).reverse.dropWhile isWsChar).reverse

/-- Python `str.strip()`. -/
def pyStrip (s : String) : String :=
  String.mk (stripChars s.data)

/-- ASCII lower-casing of one character (Python `str.lower` restricted to
ASCII, which is all the embedded code ever feeds it). -/
def lowerChar (c : Char) : Char :=
  if 'A' ≤ c && c ≤ 'Z' then Char.ofNat (c.toNat + 32) else c

/-- Python `str.lower()`. -/
def pyLower (s : String) : String :=
  String.mk (s.data.map lowerChar)

/-- Does `l` start with `p`? -/
def charsHasPrefix : List Char → List Char → Bool
  | [], _ => true
  | _ :: _, [] => false
  | p :: ps, c :: cs => p = c && charsHasPrefix ps cs

/-- Does `l` contain `p` as a contiguous run? -/
def charsContains (p : List Char) : List Char → Bool
  | [] => p.isEmpty
  | c :: cs => charsHasPrefix p (c :: cs) || charsContains p cs

/-- Python `pat in s` / SQL `LIKE '%pat%'` (no wildcard characters occur in
the patterns the code builds). -/
def strContains (s pat : String) : Bool :=
  charsContains pat.data s.data

/-- Split a character list at every occurrence of `sep`. -/
def splitOnChar (sep : Char) : List Char → List (List Char)
  | [] => [[]]
  | c :: cs =>
    let rest := splitOnChar sep cs
    if c = sep then [] :: rest
    else
      match rest with
      | [] => [[c]]
      | r :: rs => (c :: r) :: rs

/-- Python `s.split(sep)` for a one-character separator. -/
def pySplitOn (sep : Char) (s : String) : List String :=
  (splitOnChar sep s.data).map String.mk

/-- Python `s.split()` (whitespace words, empties dropped) — only used to cut
ticket metadata into keywords. -/
def pyWords (s : String) : List String :=
  ((splitOnChar ' ' s.data).map String.mk).filter (fun w => w ≠ "")

/-- Equality of `Except` results is decidable (needed to evaluate concrete
runs inside witnesses). -/
instance {e a : Type} [DecidableEq e] [DecidableEq a] :
    DecidableEq (Except e a) := fun x y =>
  match x, y with
  | .ok u, .ok v =>
    if h : u = v then .isTrue (by rw [h])
    else .isFalse (fun hc => h (by injection hc))
  | .error u, .error v =>
    if h : u = v then .isTrue (by rw [h])
    else .isFalse (fun hc => h (by injection hc))
  | .ok _, .error _ => .isFalse (fun hc => Except.noConfusion hc)
  | .error _, .ok _ => .isFalse (fun hc => Except.noConfusion hc)

/-- `generation.rlm._dedupe_ids` / the per-section dedup loops: drop every
repetition of an id, keeping first positions.  `seen` is the accumulator set. -/
def dedupeAux (seen : List String) : List String → List String
  | [] => []
  | x :: xs => if x ∈ seen then dedupeAux seen xs else x :: dedupeAux (x :: seen) xs

/-- `generation.rlm._dedupe_ids`. -/
def dedupeIds (ids : List String) : List String :=
  dedupeAux [] ids

/-- Python `set.update`: set semantics over a membership list. -/
def setUpdate (used ids : List String) : List String :=
  used ++ ids.filter (fun i => decide (i ∉ used))

/-- Stable-enough insertion step for `ORDER BY` modelling. -/
def insertLe {α : Type} (le : α → α → Bool) (a : α) : List α → List α
  | [] => [a]
  | b :: bs => if le a b then a :: b :: bs else b :: insertLe le a bs

/-- Deterministic rendering of SQL `ORDER BY` (ties are left in an arbitrary
but fixed order, as the SQL result order for ties is unspecified). -/
def sortByLe {α : Type} (le : α → α → Bool) : List α → List α
  | [] => []
  | a :: as₁ => insertLe le a (sortByLe le as₁)

/-- Row of `evidence_units` (`db/models.py::EvidenceUnit`); `created_at`
is irrelevant to every claim and omitted. -/
structure EvidenceUnit where
  evidence_unit_id : String
  source_type : String
  source_id : String
  field_name : String
  char_offset_start : Nat
  char_offset_end : Nat
  chunk_index : Nat
  snippet_text : String
deriving Repr, DecidableEq

/-- The ids present in the evidence store — the set `evidence_exists`
answers from. -/
def storeIds (store : List EvidenceUnit) : List String :=
  store.map (·.evidence_unit_id)

/-- `rlm.SECTION_RULES`: per-section `(source_types, field_names)` allow-list. -/
def SECTION_RULES (sectionName : String) : Option (List String × List String) :=
  if sectionName = "problem" then some (["TICKET"], ["Description"])
  else if sectionName = "symptoms" then
    some (["CONVERSATION", "TICKET"], ["Issue_Summary", "Description"])
  else if sectionName = "root_cause" then some (["TICKET"], ["Root_Cause"])
  else if sectionName = "resolution_steps" then some (["TICKET"], ["Resolution"])
  else if sectionName = "verification_steps" then some (["TICKET"], ["Resolution"])
  else if sectionName = "placeholders_needed" then
    some (["SCRIPT", "PLACEHOLDER"], ["Script_Text_Sanitized", "Meaning"])
  else none

/-- `rlm._extract_keywords`: up to three lowercase tokens from
title/module/category. -/
def extractKeywords (title moduleName category : String) : List String :=
  (pyWords (pyLower title) ++ pyWords (pyLower moduleName) ++
    pyWords (pyLower category)).take 3

/-- One keyword's contribution to the SQL `CASE WHEN lower(snippet) LIKE
'%kw%' THEN 1 ELSE 0` score. -/
def keywordHit (kw : String) (eu : EvidenceUnit) : Nat :=
  if strContains (pyLower eu.snippet_text) kw then 1 else 0

/-- The summed keyword score `rlm._select_candidates_for_section` orders by. -/
def keywordScore (keywords : List String) (eu : EvidenceUnit) : Nat :=
  (keywords.map (fun kw => keywordHit kw eu)).foldl (· + ·) 0

/-- `ORDER BY score DESC, char_offset_start ASC` as a Boolean preorder. -/
def candidateLe (keywords : List String) (a b : EvidenceUnit) : Bool :=
  keywordScore keywords b < keywordScore keywords a ||
    (keywordScore keywords a = keywordScore keywords b &&
      a.char_offset_start ≤ b.char_offset_start)

/-- `rlm._select_candidates_for_section`: filter the store by the section
allow-list, order by keyword score then offset, truncate to `limit` (20). -/
def selectCandidatesForSection (store : List EvidenceUnit) (sectionName : String)
    (sourceIds : List String) (keywords : List String) (limit : Nat := 20) :
    List EvidenceUnit :=
  match SECTION_RULES sectionName with
  | none => []
  | some (sourceTypes, fieldNames) =>
    let matching := store.filter (fun eu =>
      decide (eu.source_id ∈ sourceIds) && decide (eu.source_type ∈ sourceTypes) &&
        decide (eu.field_name ∈ fieldNames))
    ((if keywords.isEmpty then
        sortByLe (fun a b => a.char_offset_start ≤ b.char_offset_start) matching
      else sortByLe (candidateLe keywords) matching)).take limit

/-- `rlm._fallback_ticket_candidates`: broader TICKET-only query, offset
order, `LIMIT 10` applied *before* the used-id exclusion. -/
def fallbackTicketCandidates (store : List EvidenceUnit) (sourceIds : List String)
    (excludeIds : List String) : List EvidenceUnit :=
  if sourceIds.isEmpty then []
  else
    ((sortByLe (fun a b => a.char_offset_start ≤ b.char_offset_start)
        (store.filter (fun eu =>
          decide (eu.source_id ∈ sourceIds) && eu.source_type = "TICKET"))).take 10
      ).filter (fun r => decide (r.evidence_unit_id ∉ excludeIds))

/-- `generation.case_models.Step`. -/
structure Step where
  text : String
  evidence_unit_ids : List String
deriving Repr, DecidableEq

/-- `generation.case_models.PlaceholderNeed`. -/
structure PlaceholderNeed where
  placeholder : String
  meaning : String
  evidence_unit_ids : List String
deriving Repr, DecidableEq

/-- `generation.case_models.CaseJSON` (the `generated_at` timestamp is
omitted, as wall-clock text participates in no claim). -/
structure CaseJSON where
  ticket_id : String
  title : String
  product : String
  module : String
  category : String
  problem : String
  symptoms : List String
  environment : Option String
  root_cause : Option String
  resolution_steps : List Step
  verification_steps : List Step
  when_to_escalate : List String
  placeholders_needed : List PlaceholderNeed
  evidence_sources : List String
deriving Repr, DecidableEq

/-- What the external completion collaborator returns for one section
(`_synthesize_section_openai`'s parsed JSON): raw text plus proposed ids.
`none` stands for every failure branch (exception, empty output). -/
structure CollabResult where
  text : String
  evidence_unit_ids : List String
deriving Repr, DecidableEq

/-- The optional OpenAI section synthesizer, as an oracle from section name
and candidate list. -/
def RlmCollab : Type :=
  String → List EvidenceUnit → Option CollabResult

/-- `rlm._synthesize_section_openai`: ask the collaborator, keep only
proposed ids that are in the candidate set, dedupe; an empty text or an
empty surviving id set discards the call. -/
def synthesizeSectionOpenai (collab : RlmCollab) (sectionName : String)
    (candidates : List EvidenceUnit) : String × List String :=
  match collab sectionName candidates with
  | none => ("", [])
  | some r =>
    let text := pyStrip r.text
    let proposed := r.evidence_unit_ids.filter (fun eid => eid ≠ "")
    let candIds := candidates.map (·.evidence_unit_id)
    let selected := dedupeIds (proposed.filter (fun eid => decide (eid ∈ candIds)))
    if text = "" || selected.isEmpty then ("", []) else (text, selected)

/-- `rlm._synthesize_section_deterministic`: concatenate all candidate
snippets, cite all candidates. -/
def synthesizeSectionDeterministic (candidates : List EvidenceUnit) :
    String × List String :=
  let snippets := (candidates.map (fun c => pyStrip c.snippet_text)).filter
    (fun s => s ≠ "")
  (pyStrip (String.intercalate " " snippets),
    dedupeIds (candidates.map (·.evidence_unit_id)))

/-- Result of `rlm._build_text_section`: section text, the ids it cites, and
the updated used-id set (the mutated `used_ids` argument). -/
structure SectionResult where
  text : String
  selected_ids : List String
  used_after : List String
  candidate_count : Nat
deriving Repr

/-- The shared candidate pipeline of `_build_text_section` and
`_build_resolution_steps`: ranked query, used-id exclusion, broad TICKET
fallback when nothing survives. -/
def sectionCandidates (store : List EvidenceUnit) (sectionName : String)
    (sourceIds : List String) (keywords : List String) (used : List String) :
    List EvidenceUnit :=
  let cands0 := selectCandidatesForSection store sectionName sourceIds keywords
  let cands1 := cands0.filter (fun c => decide (c.evidence_unit_id ∉ used))
  if cands1.isEmpty then fallbackTicketCandidates store sourceIds used
  else cands1

/-- The synthesis branch of `_build_text_section`: collaborator first (only
when one is configured and candidates exist), deterministic concatenation
whenever the collaborator produced no usable text. -/
def sectionTextOutput (collab : Option RlmCollab) (sectionName : String)
    (cands : List EvidenceUnit) : String × List String :=
  let openaiOut := match collab with
    | some f => if cands.isEmpty then ("", []) else
        synthesizeSectionOpenai f sectionName cands
    | none => ("", [])
  if openaiOut.1 = "" then synthesizeSectionDeterministic cands
  else openaiOut

/-- `rlm._build_text_section`. -/
def buildTextSection (store : List EvidenceUnit) (collab : Option RlmCollab)
    (sectionName : String) (sourceIds : List String) (keywords : List String)
    (used : List String) : SectionResult :=
  let cands := sectionCandidates store sectionName sourceIds keywords used
  let out := sectionTextOutput collab sectionName cands
  { text := out.1, selected_ids := out.2, used_after := setUpdate used out.2,
    candidate_count := cands.length }

/-- `rlm._steps_from_evidence`: one step per unit with non-blank snippet,
citing exactly that unit. -/
def stepsFromEvidence : List EvidenceUnit → List Step
  | [] => []
  | u :: rest =>
    if pyStrip u.snippet_text = "" then stepsFromEvidence rest
    else { text := pyStrip u.snippet_text,
           evidence_unit_ids := [u.evidence_unit_id] } ::
      stepsFromEvidence rest

/-- `\w` of Python `re` over ASCII. -/
def isWordChar (c : Char) : Bool :=
  c.isAlpha || c.isDigit || c = '_'

/-- `re.match(r"^(verify|confirm|validate)\b", s, flags=re.I)`: `s` starts
with the word `w` (already lowercase), case-insensitively, at a word
boundary. -/
def startsWithWord (w s : String) : Bool :=
  let sl := (pyLower s).data
  charsHasPrefix w.data sl &&
    (match sl.drop w.data.length with
     | [] => true
     | c :: _ => !isWordChar c)

/-- The verification-imperative test of `rlm._filter_verification_steps`. -/
def isVerificationText (s : String) : Bool :=
  startsWithWord "verify" (pyStrip s) || startsWithWord "confirm" (pyStrip s) ||
    startsWithWord "validate" (pyStrip s)

/-- `rlm._filter_verification_steps`. -/
def filterVerificationSteps : List Step → List Step
  | [] => []
  | st :: rest =>
    if isVerificationText st.text then st :: filterVerificationSteps rest
    else filterVerificationSteps rest

/-- Result of `rlm._build_resolution_steps`. -/
structure StepsResult where
  steps : List Step
  selected_ids : List String
  used_after : List String
  candidate_count : Nat
deriving Repr

/-- `rlm._build_resolution_steps`. -/
def buildResolutionSteps (store : List EvidenceUnit) (sourceIds : List String)
    (keywords : List String) (used : List String) : StepsResult :=
  let cands := sectionCandidates store "resolution_steps" sourceIds keywords used
  let steps := stepsFromEvidence cands
  let selected := dedupeIds (steps.flatMap (·.evidence_unit_ids))
  { steps := steps, selected_ids := selected,
    used_after := setUpdate used selected, candidate_count := cands.length }

/-- Row of `raw_tickets` restricted to the columns the generation code reads
(missing spreadsheet cells are already coalesced to `""`, mirroring
`str(ticket.get(...) or "")`). -/
structure TicketRow where
  ticket_number : String
  subject : String
  product : String
  module : String
  category : String
  description : String
  root_cause : String
  resolution : String
  script_id : String
deriving Repr, DecidableEq

/-- Row of `raw_conversations` restricted to the columns read here. -/
structure ConversationRow where
  ticket_number : String
  conversation_id : String
deriving Repr, DecidableEq

/-- Row of `raw_scripts_master` restricted to the columns read here. -/
structure ScriptRow where
  script_id : String
  script_text_sanitized : String
deriving Repr, DecidableEq

/-- Row of `raw_placeholder_dictionary`. -/
structure PlaceholderRow where
  placeholder : String
  meaning : String
deriving Repr, DecidableEq

/-- `rlm._collect_source_ids`: ticket id, then conversation ids, then script
ids (empty ids are falsy and skipped). -/
def collectSourceIds (ticketId : String) (conversations : List ConversationRow)
    (scripts : List ScriptRow) : List String :=
  ticketId :: ((conversations.map (·.conversation_id)).filter (fun i => i ≠ "") ++
    (scripts.map (·.script_id)).filter (fun i => i ≠ ""))

/-- `rlm._collect_placeholder_tokens`. -/
def collectPlaceholderTokens (placeholders : List PlaceholderRow) : List String :=
  (placeholders.map (·.placeholder)).filter (fun t => t ≠ "")

/-- Is `c` allowed inside a `<...>` placeholder token (`[A-Z0-9_]`)? -/
def isTokenChar (c : Char) : Bool :=
  ('A' ≤ c && c ≤ 'Z') || ('0' ≤ c && c ≤ '9') || c = '_'

/-- `re.findall(r"<[A-Z0-9_]+>", text)`: left-to-right, non-overlapping. -/
def findTokens : List Char → List String
  | [] => []
  | c :: cs =>
    if c = '<' then
      let body := cs.takeWhile isTokenChar
      match h : cs.drop body.length with
      | '>' :: tail =>
        if body.isEmpty then findTokens cs
        else String.mk ('<' :: (body ++ ['>'])) :: findTokens tail
      | _ => findTokens cs
    else findTokens cs
termination_by l => l.length
decreasing_by
  · simp
  · have hlen := congrArg List.length h
    simp [List.length_drop] at hlen
    simp
    omega
  · simp
  · simp

/-- Last dictionary entry for a key, mirroring Python dict-comprehension
overwrite semantics (`{p["Placeholder"]: ... for p in placeholders}`). -/
def lastMeaning (placeholders : List PlaceholderRow) (token : String) : String :=
  match ((placeholders.filter (fun p => p.placeholder ≠ "")).filter
      (fun p => p.placeholder = token)).getLast? with
  | some p => p.meaning
  | none => ""

/-- Last evidence row keyed by `source_id`
(`{row.source_id: row for row in placeholder_rows}`). -/
def lastBySourceId (rows : List EvidenceUnit) (sid : String) :
    Option EvidenceUnit :=
  (rows.filter (fun r => r.source_id = sid)).getLast?

/-- Ordered association list with Python-dict insert-or-overwrite semantics
(the key keeps its first position, the value is replaced). -/
def assocSet (l : List (String × PlaceholderNeed)) (k : String)
    (v : PlaceholderNeed) : List (String × PlaceholderNeed) :=
  if l.any (fun p => p.1 = k) then
    l.map (fun p => if p.1 = k then (k, v) else p)
  else l ++ [(k, v)]

/-- One iteration of the token loop in `rlm._build_placeholders_needed`:
collect the script evidence units containing the token and the dedicated
placeholder unit, excluding already-used ids. -/
def placeholderIdsForToken (scriptEUs phEUs : List EvidenceUnit)
    (used : List String) (token : String) : List String :=
  let fromScripts := (scriptEUs.filter (fun eu =>
    strContains eu.snippet_text token &&
      decide (eu.evidence_unit_id ∉ used))).map (·.evidence_unit_id)
  let fromPh := match lastBySourceId phEUs token with
    | some eu => if eu.evidence_unit_id ∈ used then [] else [eu.evidence_unit_id]
    | none => []
  dedupeIds (fromScripts ++ fromPh)

/-- The token loop of `rlm._build_placeholders_needed` over one script's
token set. -/
def placeholderTokenLoop (scriptEUs phEUs : List EvidenceUnit)
    (placeholders : List PlaceholderRow)
    (found : List (String × PlaceholderNeed)) (used : List String) :
    List String → List (String × PlaceholderNeed) × List String
  | [] => (found, used)
  | token :: rest =>
    let ids := placeholderIdsForToken scriptEUs phEUs used token
    let used' := if ids.isEmpty then used else setUpdate used ids
    let need : PlaceholderNeed :=
      { placeholder := token, meaning := lastMeaning placeholders token,
        evidence_unit_ids := ids }
    placeholderTokenLoop scriptEUs phEUs placeholders
      (assocSet found token need) used' rest

/-- The script loop of `rlm._build_placeholders_needed`. -/
def placeholderScriptLoop (scriptEUs phEUs : List EvidenceUnit)
    (placeholders : List PlaceholderRow)
    (found : List (String × PlaceholderNeed)) (used : List String) :
    List ScriptRow → List (String × PlaceholderNeed) × List String
  | [] => (found, used)
  | s :: rest =>
    let tokens := dedupeIds (findTokens s.script_text_sanitized.data)
    let (found', used') := placeholderTokenLoop scriptEUs phEUs placeholders
      found used tokens
    placeholderScriptLoop scriptEUs phEUs placeholders found' used' rest

/-- Result of `rlm._build_placeholders_needed`. -/
structure PlaceholdersResult where
  needs : List PlaceholderNeed
  selected_ids : List String
  used_after : List String
  candidate_count : Nat
deriving Repr

/-- `rlm._build_placeholders_needed`. -/
def buildPlaceholdersNeeded (store : List EvidenceUnit)
    (scripts : List ScriptRow) (placeholders : List PlaceholderRow)
    (used : List String) : PlaceholdersResult :=
  let scriptIds := (scripts.map (·.script_id)).filter (fun i => i ≠ "")
  let scriptEUs := if scriptIds.isEmpty then [] else
    store.filter (fun eu => decide (eu.source_id ∈ scriptIds) &&
      eu.source_type = "SCRIPT" && eu.field_name = "Script_Text_Sanitized")
  let tokens := collectPlaceholderTokens placeholders
  let phEUs := if tokens.isEmpty then [] else
    store.filter (fun eu => decide (eu.source_id ∈ tokens) &&
      eu.source_type = "PLACEHOLDER")
  let (found, used') := placeholderScriptLoop scriptEUs phEUs placeholders
    [] used scripts
  let needs := found.map (·.2)
  { needs := needs,
    selected_ids := dedupeIds (needs.flatMap (·.evidence_unit_ids)),
    used_after := used',
    candidate_count :=
      scriptEUs.length + (dedupeIds (phEUs.map (·.source_id))).length }

/-- `rlm._build_evidence_sources` / `generator._build_evidence_sources`. -/
def buildEvidenceSources (problemIds symptomIds rootCauseIds : List String)
    (resolutionSteps verificationSteps : List Step)
    (placeholdersNeeded : List PlaceholderNeed) : List String :=
  let problemIds := dedupeIds problemIds
  let symptomIds := dedupeIds symptomIds
  let rootCauseIds := dedupeIds rootCauseIds
  (if problemIds.isEmpty then [] else
    ["problem: " ++ String.intercalate ", " problemIds]) ++
  (if symptomIds.isEmpty then [] else
    ["symptoms: " ++ String.intercalate ", " symptomIds]) ++
  (if rootCauseIds.isEmpty then [] else
    ["root_cause: " ++ String.intercalate ", " rootCauseIds]) ++
  (if resolutionSteps.isEmpty then [] else
    ["resolution_steps: " ++ String.intercalate ", "
      (dedupeIds (resolutionSteps.flatMap (·.evidence_unit_ids)))]) ++
  (if verificationSteps.isEmpty then [] else
    ["verification_steps: " ++ String.intercalate ", "
      (dedupeIds (verificationSteps.flatMap (·.evidence_unit_ids)))]) ++
  (if placeholdersNeeded.isEmpty then [] else
    ["placeholders_needed: " ++ String.intercalate ", "
      (dedupeIds (placeholdersNeeded.flatMap (·.evidence_unit_ids)))])

/-- Python `str(x or default).strip() or default` chains used on ticket
metadata. -/
def orDefault (s dflt : String) : String :=
  if pyStrip s = "" then dflt else pyStrip s

/-- One `entry.split(":", 1)` of `_parse_evidence_sources` /
`_collect_evidence_by_section`: `none` when the entry has no colon. -/
def parseSourceEntry (entry : String) : Option (String × List String) :=
  match pySplitOn ':' entry with
  | [] => none
  | [_] => none
  | label :: rest =>
    some (pyStrip label,
      ((pySplitOn ',' (String.intercalate ":" rest)).map pyStrip).filter
        (fun e => e ≠ ""))

/-- `rlm_verifier._parse_evidence_sources` followed by `.get(label, [])`
(later entries with the same label overwrite earlier ones). -/
def sourcesLookup (entries : List String) (label : String) : List String :=
  match ((entries.filterMap parseSourceEntry).filter
      (fun p => p.1 = label)).getLast? with
  | some p => p.2
  | none => []

/-- `rlm_verifier._collect_section_ids`, as a function from the six section
labels. -/
def collectSectionIds (cj : CaseJSON) (label : String) : List String :=
  if label = "problem" ∨ label = "symptoms" ∨ label = "root_cause" then
    sourcesLookup cj.evidence_sources label
  else if label = "resolution_steps" then
    (cj.resolution_steps.flatMap (·.evidence_unit_ids)).filter (fun e => e ≠ "")
  else if label = "verification_steps" then
    (cj.verification_steps.flatMap (·.evidence_unit_ids)).filter (fun e => e ≠ "")
  else if label = "placeholders_needed" then
    (cj.placeholders_needed.flatMap (·.evidence_unit_ids)).filter (fun e => e ≠ "")
  else []

/-- The fixed iteration order of `ids_by_section`. -/
def sectionLabels : List String :=
  ["problem", "symptoms", "root_cause", "resolution_steps",
   "verification_steps", "placeholders_needed"]

/-- The declared legal overlap of `rlm_verifier._dedupe_across_sections`. -/
def allowedOverlap (prev sec : String) : Bool :=
  (prev = "resolution_steps" && sec = "verification_steps") ||
    (prev = "verification_steps" && sec = "resolution_steps")

/-- Inner id loop of `_dedupe_across_sections`; `seen` maps an id to the
first section that cited it (an id is not re-recorded on an allowed
overlap, exactly as in the source). -/
def crossIdLoop (sec : String) (seen : List (String × String)) :
    List String → Option (List (String × String))
  | [] => some seen
  | eid :: rest =>
    match seen.find? (fun p => p.1 = eid) with
    | some p =>
      if allowedOverlap p.2 sec then crossIdLoop sec seen rest else none
    | none => crossIdLoop sec ((eid, sec) :: seen) rest

/-- Section loop of `rlm_verifier._dedupe_across_sections`. -/
def crossSectionLoop (seen : List (String × String)) :
    List (String × List String) → Bool
  | [] => true
  | (sec, ids) :: rest =>
    match crossIdLoop sec seen ids with
    | none => false
    | some seen' => crossSectionLoop seen' rest

/-- `rlm_verifier._dedupe_across_sections`. -/
def dedupeAcrossSections (sections : List (String × List String)) : Bool :=
  crossSectionLoop [] sections

/-- The per-check booleans of `verify_case_json`. -/
structure VerifierChecks where
  all_ids_exist : Bool
  ids_deduped : Bool
  required_fields : Bool
  section_anchors : Bool
deriving Repr, DecidableEq

/-- The `(ok, errors, checks)` verdict of `verify_case_json`. -/
structure VerifierVerdict where
  ok : Bool
  errors : List String
  checks : VerifierChecks
deriving Repr, DecidableEq

/-- `rlm_verifier.verify_case_json` (the `resolution_steps is None` branch is
unreachable after pydantic validation and is not represented: the field is a
list).  Errors are accumulated in source order; `ok` is `not errors`. -/
def verifyCaseJson (cj : CaseJSON) (store : List EvidenceUnit) :
    VerifierVerdict :=
  let idsBy := fun label => collectSectionIds cj label
  let requiredErr :=
    if cj.ticket_id = "" ∨ cj.title = "" ∨ cj.problem = "" then
      ["Missing required fields: ticket_id, title, or problem."] else []
  let emptyStepErr :=
    if cj.resolution_steps.any (fun st => pyStrip st.text = "") then
      ["resolution_steps contains empty step.text."] else []
  let dupErrs := sectionLabels.flatMap (fun label =>
    if (dedupeIds (idsBy label)).length ≠ (idsBy label).length then
      ["Duplicate evidence_unit_ids in section: " ++ label] else [])
  let crossOk := dedupeAcrossSections (sectionLabels.map
    (fun label => (label, idsBy label)))
  let crossErrs := if crossOk then [] else
    ["evidence_unit_ids are reused across sections."]
  let allIds := sectionLabels.flatMap idsBy
  let missing := sortByLe (fun a b => decide (a ≤ b))
    (dedupeIds (allIds.filter (fun eid => decide (eid ∉ storeIds store))))
  let missingErrs :=
    if allIds.isEmpty then [] else
    if missing.isEmpty then [] else
      ["Missing evidence_unit_ids: " ++ String.intercalate ", " missing]
  let anchorErrs :=
    (if cj.problem ≠ "" ∧ idsBy "problem" = [] then
      ["problem section must cite at least one evidence id."] else []) ++
    (if cj.symptoms ≠ [] ∧ idsBy "symptoms" = [] then
      ["symptoms section must cite at least one evidence id."] else []) ++
    (if (match cj.root_cause with | some s => decide (s ≠ "") | none => false) &&
        decide (idsBy "root_cause" = []) then
      ["root_cause section must cite at least one evidence id."] else []) ++
    (if idsBy "resolution_steps" = [] then
      ["resolution_steps must cite at least one evidence id overall."] else [])
  let errors := requiredErr ++ emptyStepErr ++ dupErrs ++ crossErrs ++
    missingErrs ++ anchorErrs
  { ok := errors.isEmpty,
    errors := errors,
    checks :=
      { all_ids_exist := missingErrs.isEmpty,
        ids_deduped := dupErrs.isEmpty && crossOk,
        required_fields := requiredErr.isEmpty && emptyStepErr.isEmpty,
        section_anchors := anchorErrs.isEmpty } }

/-- Per-section entry of the rlm trace (database timings and token usage of
`openai_call` are wall-clock facts outside the embedding). -/
structure SectionTrace where
  candidate_count : Nat
  selected_evidence_unit_ids : List String
deriving Repr, DecidableEq

/-- The trace record `build_case_json_rlm` returns alongside the document. -/
structure RlmTrace where
  generation_mode : String
  problem : SectionTrace
  symptoms : SectionTrace
  root_cause : SectionTrace
  resolution_steps : SectionTrace
  verification_steps : SectionTrace
  placeholders_needed : SectionTrace
  verifier : Option VerifierVerdict
deriving Repr, DecidableEq

/-- `rlm._load_ticket_context` over the raw workbook tables. -/
def loadTicketContext (rawTickets : List TicketRow)
    (rawConversations : List ConversationRow) (rawScripts : List ScriptRow)
    (rawPlaceholders : List PlaceholderRow) (ticketId : String) :
    Except String (TicketRow × List ConversationRow × List ScriptRow ×
      List PlaceholderRow) :=
  match rawTickets.filter (fun t => t.ticket_number = ticketId) with
  | [] => .error ("Ticket not found: " ++ ticketId)
  | t :: _ =>
    .ok (t, rawConversations.filter (fun c => c.ticket_number = ticketId),
      if t.script_id ≠ "" then
        rawScripts.filter (fun s => s.script_id = t.script_id) else [],
      rawPlaceholders)

/-- The body of `rlm.build_case_json_rlm` once the ticket context has
loaded: the section-by-section assembler threading a single used-id set,
followed by the verifier. -/
def rlmAssemble (store : List EvidenceUnit) (ticket : TicketRow)
    (conversations : List ConversationRow) (scripts : List ScriptRow)
    (placeholders : List PlaceholderRow) (collab : Option RlmCollab)
    (ticketId : String) : CaseJSON × RlmTrace :=
  let title := pyStrip ticket.subject
  let moduleName := pyStrip ticket.module
  let category := pyStrip ticket.category
  let sourceIds := collectSourceIds ticketId conversations scripts
  let keywords := extractKeywords title moduleName category
  let p := buildTextSection store collab "problem" sourceIds keywords []
  let s := buildTextSection store collab "symptoms" sourceIds keywords
    p.used_after
  let rc := buildTextSection store collab "root_cause" sourceIds keywords
    s.used_after
  let r := buildResolutionSteps store sourceIds keywords rc.used_after
  let v := filterVerificationSteps r.steps
  let ph := buildPlaceholdersNeeded store scripts placeholders r.used_after
  let evidenceSources := buildEvidenceSources p.selected_ids s.selected_ids
    rc.selected_ids r.steps v ph.needs
  let cj : CaseJSON :=
    { ticket_id := ticketId,
      title := orDefault ticket.subject "Untitled",
      product := orDefault ticket.product "N/A",
      module := orDefault ticket.module "N/A",
      category := orDefault ticket.category "N/A",
      problem := if p.text = "" then "N/A" else p.text,
      symptoms := if s.text = "" then [] else [s.text],
      environment := none,
      root_cause := if rc.text = "" then none else some rc.text,
      resolution_steps := r.steps,
      verification_steps := v,
      when_to_escalate := [],
      placeholders_needed := ph.needs,
      evidence_sources := evidenceSources }
  let verdict := verifyCaseJson cj store
  let trace : RlmTrace :=
    { generation_mode := if collab.isSome then "rlm_openai" else "rlm",
      problem := ⟨p.candidate_count, p.selected_ids⟩,
      symptoms := ⟨s.candidate_count, s.selected_ids⟩,
      root_cause := ⟨rc.candidate_count, rc.selected_ids⟩,
      resolution_steps := ⟨r.candidate_count, r.selected_ids⟩,
      verification_steps :=
        ⟨r.steps.length, dedupeIds (v.flatMap (·.evidence_unit_ids))⟩,
      placeholders_needed := ⟨ph.candidate_count, ph.selected_ids⟩,
      verifier := some verdict }
  (cj, trace)

/-- `rlm.build_case_json_rlm`: load the ticket context (raising on an
unknown ticket), then assemble.  The collaborator argument stands for
`get_openai_client` (`none` covers `OpenAIUnavailable`). -/
def buildCaseJsonRlm (store : List EvidenceUnit) (rawTickets : List TicketRow)
    (rawConversations : List ConversationRow) (rawScripts : List ScriptRow)
    (rawPlaceholders : List PlaceholderRow) (collab : Option RlmCollab)
    (ticketId : String) : Except String (CaseJSON × RlmTrace) :=
  match loadTicketContext rawTickets rawConversations rawScripts
      rawPlaceholders ticketId with
  | .error e => .error e
  | .ok (ticket, conversations, scripts, placeholders) =>
    .ok (rlmAssemble store ticket conversations scripts placeholders collab
      ticketId)

/-- Row of `kb_lineage_edges` (`db/models.py::KBLineageEdge`); `edge_id` is
the primary key. -/
structure KBLineageEdge where
  edge_id : String
  draft_id : String
  evidence_unit_id : String
  relationship : String
  section_label : String
deriving Repr, DecidableEq

/-- `lineage._collect_evidence_by_section`'s `setdefault(label, []).extend`:
append ids under a label, keeping the label's first position. -/
def sectionMapExtend (m : List (String × List String)) (k : String)
    (ids : List String) : List (String × List String) :=
  if m.any (fun p => p.1 = k) then
    m.map (fun p => if p.1 = k then (p.1, p.2 ++ ids) else p)
  else m ++ [(k, ids)]

/-- `lineage._collect_evidence_by_section`: steps, placeholders, then every
parsable `evidence_sources` entry, with a final order-preserving dedup per
section. -/
def collectEvidenceBySection (cj : CaseJSON) : List (String × List String) :=
  let m0 : List (String × List String) := []
  let m1 := cj.resolution_steps.foldl
    (fun m st => sectionMapExtend m "resolution_steps" st.evidence_unit_ids) m0
  let m2 := cj.verification_steps.foldl
    (fun m st => sectionMapExtend m "verification_steps" st.evidence_unit_ids) m1
  let m3 := cj.placeholders_needed.foldl
    (fun m p => sectionMapExtend m "placeholders_needed" p.evidence_unit_ids) m2
  let m4 := cj.evidence_sources.foldl
    (fun m entry =>
      match parseSourceEntry entry with
      | some (label, ids) => if ids.isEmpty then m else sectionMapExtend m label ids
      | none => m) m3
  m4.map (fun p => (p.1, dedupeIds p.2))

/-- `session.add` + `session.commit()` for lineage edges: `edge_id` is the
primary key, so inserting an id that is already present makes the commit
fail with an integrity error and the transaction leaves no rows behind. -/
def insertEdges (existing : List KBLineageEdge) :
    List KBLineageEdge → Except String (List KBLineageEdge)
  | [] => .ok existing
  | e :: rest =>
    if decide (e.edge_id ∈ existing.map (·.edge_id)) then
      .error "UNIQUE constraint failed: kb_lineage_edges.edge_id"
    else insertEdges (existing ++ [e]) rest

/-- The `unit_map = {u.evidence_unit_id: u for u in units}` lookup of
`write_lineage_edges` (last row wins, Python dict semantics). -/
def lastByUnitId (rows : List EvidenceUnit) (eid : String) :
    Option EvidenceUnit :=
  (rows.filter (fun r => r.evidence_unit_id = eid)).getLast?

/-- The edge list `lineage.write_lineage_edges` builds for one section
(inner loop body; per-section dedup by `seen_ids`, unknown ids skipped). -/
def edgesForSection (store : List EvidenceUnit) (draftId : String)
    (label : String) (ids : List String) : List KBLineageEdge :=
  (dedupeIds ids).filterMap (fun eid =>
    match lastByUnitId store eid with
    | none => none
    | some unit =>
      some { edge_id := "EDGE-" ++ draftId ++ "-" ++ eid ++ "-" ++ label,
             draft_id := draftId,
             evidence_unit_id := eid,
             relationship :=
               if unit.source_type = "SCRIPT" ∨ unit.source_type = "PLACEHOLDER"
               then "REFERENCES" else "CREATED_FROM",
             section_label := label })

/-- `lineage.write_lineage_edges`: derive edges from the document's
citations and persist them; returns the new edges and the resulting edge
table.  The `unit_map` lookup resolves each cited id against the evidence
store. -/
def writeLineageEdges (store : List EvidenceUnit) (draftId : String)
    (cj : CaseJSON) (edgeTable : List KBLineageEdge) :
    Except String (List KBLineageEdge × List KBLineageEdge) :=
  let bySection := collectEvidenceBySection cj
  if bySection.flatMap (·.2) = [] then .ok ([], edgeTable)
  else
    let newEdges := bySection.flatMap (fun p =>
      edgesForSection store draftId p.1 p.2)
    match insertEdges edgeTable newEdges with
    | .error e => .error e
    | .ok table' => .ok (newEdges, table')

/-- Row of `kb_drafts`.  `case_json` is stored parsed (`none` models a text
column whose JSON does not parse); `generation_mode` and `rlm_trace_json`
are the two columns the SQLite migration (`db/__init__.py::
_ensure_kb_drafts_columns`) adds to the table — the ORM class in
`db/models.py` omits them, which is the defect recorded for C4/C9. -/
structure KBDraft where
  draft_id : String
  ticket_id : String
  title : String
  body_markdown : String
  case_json : Option CaseJSON
  status : String
  reviewer : Option String
  reviewed_at : Option Nat
  review_notes : Option String
  published_at : Option Nat
  generation_mode : String
  rlm_trace_json : Option RlmTrace
deriving Repr, DecidableEq

/-- Row of `learning_events` (`created_at` omitted). -/
structure LearningEvent where
  event_id : String
  event_type : String
  draft_id : Option String
  ticket_id : Option String
deriving Repr, DecidableEq

/-- Row of `published_kb_articles`.  `tags_json` keeps the raw text column
(parsed only by `export_for_indexer`). -/
structure PublishedKBArticle where
  kb_article_id : String
  latest_draft_id : String
  title : String
  body_markdown : String
  module : String
  category : String
  tags_json : Option String
  source_type : String
  source_ticket_id : String
  current_version : Nat
  created_at : Nat
  updated_at : Nat
deriving Repr, DecidableEq

/-- Row of `kb_article_versions`. -/
structure KBArticleVersion where
  version_id : String
  kb_article_id : String
  version : Nat
  source_draft_id : Option String
  body_markdown : String
  title : String
  reviewer : Option String
  change_note : Option String
  is_rollback : Bool
  created_at : Nat
deriving Repr, DecidableEq

/-- The database a `Session` is bound to: the raw workbook tables, the
evidence store, and the governed tables.  `next_uuid` stands in for the
`uuid.uuid4()` stream. -/
structure Db where
  evidence_units : List EvidenceUnit
  raw_tickets : List TicketRow
  raw_conversations : List ConversationRow
  raw_scripts : List ScriptRow
  raw_placeholders : List PlaceholderRow
  kb_drafts : List KBDraft
  articles : List PublishedKBArticle
  versions : List KBArticleVersion
  events : List LearningEvent
  next_uuid : Nat
deriving Repr, DecidableEq

/-- Deterministic rendering of the `uuid.uuid4()` stream. -/
def freshUuid (n : Nat) : String :=
  "uuid-" ++ toString n

/-- `governance.ALLOWED_TRANSITIONS` (`.get(current, set())` for unknown
states). -/
def ALLOWED_TRANSITIONS (current : String) : List String :=
  if current = "draft" then ["approved", "rejected", "superseded"]
  else if current = "approved" then ["published", "rejected", "superseded"]
  else if current = "rejected" then []
  else if current = "published" then []
  else if current = "superseded" then []
  else []

/-- The error text `governance._validate_transition` raises with. -/
def invalidTransitionMsg (current target : String) : String :=
  "Invalid status transition: " ++ current ++ " -> " ++ target

/-- `governance._validate_transition`. -/
def validateTransition (current target : String) : Except String Unit :=
  if target ∈ ALLOWED_TRANSITIONS current then .ok ()
  else .error (invalidTransitionMsg current target)

/-- `_get_draft` (`one_or_none` raises on several matches). -/
def getDraft (drafts : List KBDraft) (draftId : String) :
    Except String KBDraft :=
  match drafts.filter (fun d => d.draft_id = draftId) with
  | [] => .error ("Draft not found: " ++ draftId)
  | [d] => .ok d
  | _ => .error "Multiple rows were found when one or none was required"

/-- `governance._log_event` (the appended row; `metadata_json` carries no
claim content and is omitted). -/
def mkEvent (eventId eventType : String) (draftId ticketId : Option String) :
    LearningEvent :=
  { event_id := eventId, event_type := eventType, draft_id := draftId,
    ticket_id := ticketId }

/-- The drafts `supersede_other_drafts` selects: same ticket, different id,
status in the requested set. -/
def supersedeTargets (drafts : List KBDraft) (ticketId keepDraftId : String)
    (statuses : List String) : List KBDraft :=
  drafts.filter (fun d => d.ticket_id = ticketId &&
    d.draft_id ≠ keepDraftId && decide (d.status ∈ statuses))

/-- The per-row mutation of `supersede_other_drafts` (identity on rows the
target query does not select). -/
def supersedeUpdate (ticketId keepDraftId : String) (statuses : List String)
    (reviewer : Option String) (reason : String) (now : Nat)
    (d : KBDraft) : KBDraft :=
  if d.ticket_id = ticketId && d.draft_id ≠ keepDraftId &&
      decide (d.status ∈ statuses) then
    { d with
      status := "superseded", reviewer := reviewer,
      reviewed_at := some now, review_notes := some reason }
  else d

/-- The `superseded` audit events `supersede_other_drafts` logs: exactly one
per retired draft, with consecutive uuids. -/
def supersedeEvents (baseUuid : Nat) : List KBDraft → List LearningEvent
  | [] => []
  | d :: rest =>
    mkEvent (freshUuid baseUuid) "superseded" (some d.draft_id)
      (some d.ticket_id) :: supersedeEvents (baseUuid + 1) rest

/-- `governance.supersede_other_drafts`: validate and retire every target,
logging one `superseded` event per retired draft; returns the count.  A
validation failure raises before the caller's commit, so the store is
unchanged on error. -/
def supersedeOtherDrafts (db : Db) (ticketId keepDraftId reason : String)
    (reviewer : Option String) (statuses : List String) (now : Nat) :
    Except String (Db × Nat) :=
  let targets := supersedeTargets db.kb_drafts ticketId keepDraftId statuses
  match targets.find? (fun d =>
      !(decide ("superseded" ∈ ALLOWED_TRANSITIONS d.status))) with
  | some bad => .error (invalidTransitionMsg bad.status "superseded")
  | none =>
    .ok ({ db with
           kb_drafts := db.kb_drafts.map
             (supersedeUpdate ticketId keepDraftId statuses reviewer reason now),
           events := db.events ++ supersedeEvents db.next_uuid targets,
           next_uuid := db.next_uuid + targets.length }, targets.length)

/-- `governance.approve_draft`. -/
def approveDraft (db : Db) (draftId reviewer : String)
    (notes : Option String) (now : Nat) : Except String Db := do
  let draft ← getDraft db.kb_drafts draftId
  let _ ← validateTransition draft.status "approved"
  let updated := { draft with
    status := "approved", reviewer := some reviewer,
    reviewed_at := some now, review_notes := notes }
  let db1 := { db with
    kb_drafts := db.kb_drafts.map (fun d =>
      if d.draft_id = draftId then updated else d) }
  let (db2, _) ← supersedeOtherDrafts db1 draft.ticket_id draft.draft_id
    "Superseded by approved draft." (some reviewer) ["draft", "approved"] now
  let ev := mkEvent (freshUuid db2.next_uuid) "approved" (some draft.draft_id)
    (some draft.ticket_id)
  return { db2 with
    events := db2.events ++ [ev],
    next_uuid := db2.next_uuid + 1 }

/-- `governance.reject_draft`. -/
def rejectDraft (db : Db) (draftId reviewer : String)
    (notes : Option String) (now : Nat) : Except String Db := do
  let draft ← getDraft db.kb_drafts draftId
  let _ ← validateTransition draft.status "rejected"
  let updated := { draft with
    status := "rejected", reviewer := some reviewer,
    reviewed_at := some now, review_notes := notes }
  let ev := mkEvent (freshUuid db.next_uuid) "rejected" (some draft.draft_id)
    (some draft.ticket_id)
  return { db with
    kb_drafts := db.kb_drafts.map (fun d =>
      if d.draft_id = draftId then updated else d),
    events := db.events ++ [ev],
    next_uuid := db.next_uuid + 1 }

/-- `publish._get_taxonomy`: module/category from the draft's stored case
document (`or "N/A"` on falsy values, `none` for an unparseable column);
`CaseJSON` has no `tags` member, so `tags_json` stays `NULL` for drafts this
system writes. -/
def getTaxonomy (d : KBDraft) : String × String × Option String :=
  match d.case_json with
  | none => ("N/A", "N/A", none)
  | some cj =>
    (if cj.module = "" then "N/A" else cj.module,
     if cj.category = "" then "N/A" else cj.category,
     none)

/-- `publish.publish_draft`. -/
def publishDraft (db : Db) (draftId reviewer : String)
    (changeNote : Option String) (kbArticleId : Option String) (now : Nat) :
    Except String (Db × PublishedKBArticle) := do
  let draft ← getDraft db.kb_drafts draftId
  if draft.status = "published" ∨ draft.published_at ≠ none then
    throw ("Draft " ++ draftId ++ " has already been published")
  else if draft.status ≠ "approved" then
    throw ("Draft " ++ draftId ++ " must be approved before publishing")
  else
    let (moduleName, category, tagsJson) := getTaxonomy draft
    let title := draft.title
    let body := draft.body_markdown
    let newArticleId := freshUuid db.next_uuid
    let articleAndVersion :
        Except String (String × List PublishedKBArticle × PublishedKBArticle × Nat) :=
      match kbArticleId with
      | none =>
        let article : PublishedKBArticle :=
          { kb_article_id := newArticleId, latest_draft_id := draft.draft_id,
            title := title, body_markdown := body, module := moduleName,
            category := category, tags_json := tagsJson,
            source_type := "learned", source_ticket_id := draft.ticket_id,
            current_version := 1, created_at := now, updated_at := now }
        .ok (newArticleId, db.articles ++ [article], article, 1)
      | some aid =>
        match db.articles.filter (fun a => a.kb_article_id = aid) with
        | [] => .error ("Published article not found: " ++ aid)
        | a :: _ =>
          let vn := a.current_version + 1
          let updated := { a with
            latest_draft_id := draft.draft_id,
            title := title, body_markdown := body, module := moduleName,
            category := category, tags_json := tagsJson,
            current_version := vn, updated_at := now }
          .ok (aid, db.articles.map (fun x =>
            if x.kb_article_id = aid then updated else x), updated, vn)
    let (aid, articles', article, versionNumber) ← articleAndVersion
    let version : KBArticleVersion :=
      { version_id := freshUuid (db.next_uuid + 1), kb_article_id := aid,
        version := versionNumber, source_draft_id := some draft.draft_id,
        body_markdown := body, title := title, reviewer := some reviewer,
        change_note := changeNote, is_rollback := false, created_at := now }
    let draftsAfter := db.kb_drafts.map (fun d =>
      if d.draft_id = draftId then
        { d with status := "published", published_at := some now } else d)
    let ev := mkEvent (freshUuid (db.next_uuid + 2)) "published"
      (some draft.draft_id) (some draft.ticket_id)
    return ({ db with
      articles := articles',
      versions := db.versions ++ [version],
      kb_drafts := draftsAfter,
      events := db.events ++ [ev],
      next_uuid := db.next_uuid + 3 }, article)

/-- `publish.rollback_version`. -/
def rollbackVersion (db : Db) (kbArticleId : String) (targetVersion : Nat)
    (reviewer note : String) (now : Nat) :
    Except String (Db × PublishedKBArticle) := do
  let article ← match db.articles.filter
      (fun a => a.kb_article_id = kbArticleId) with
    | [] => throw ("Published article not found: " ++ kbArticleId)
    | a :: _ => pure a
  let target ← match db.versions.filter (fun v =>
      v.kb_article_id = kbArticleId && v.version = targetVersion) with
    | [] => throw ("Version " ++ toString targetVersion ++
        " not found for article " ++ kbArticleId)
    | v :: _ => pure v
  let newVersionNumber := article.current_version + 1
  let rollbackRecord : KBArticleVersion :=
    { version_id := freshUuid db.next_uuid, kb_article_id := kbArticleId,
      version := newVersionNumber, source_draft_id := none,
      body_markdown := target.body_markdown, title := target.title,
      reviewer := some reviewer, change_note := some note,
      is_rollback := true, created_at := now }
  let updated := { article with
    body_markdown := target.body_markdown,
    title := target.title, current_version := newVersionNumber,
    updated_at := now }
  let ev := mkEvent (freshUuid (db.next_uuid + 1)) "rollback" none
    (some article.source_ticket_id)
  return ({ db with
    articles := db.articles.map (fun a =>
      if a.kb_article_id = kbArticleId then updated else a),
    versions := db.versions ++ [rollbackRecord],
    events := db.events ++ [ev],
    next_uuid := db.next_uuid + 2 }, updated)

/-- `publish.get_published_article`. -/
def getPublishedArticle (db : Db) (kbArticleId : String) :
    Except String PublishedKBArticle :=
  match db.articles.filter (fun a => a.kb_article_id = kbArticleId) with
  | [] => .error ("Published article not found: " ++ kbArticleId)
  | a :: _ => .ok a

/-- A JSON value, for the `json.loads` call in `export_for_indexer`. -/
inductive Jv where
  | null : Jv
  | bool (b : Bool) : Jv
  | num (n : Int) : Jv
  | str (s : String) : Jv
  | arr (xs : List Jv) : Jv
  | obj (fields : List (String × Jv)) : Jv
deriving Repr

/-- The indexer projection `export_for_indexer` returns. -/
structure ExportRecord where
  kb_article_id : String
  title : String
  body_markdown : String
  module : String
  category : String
  tags : Jv
  source_type : String
  source_ticket_id : String
  version : Nat
  lineage_draft_id : String
deriving Repr

/-- `publish.export_for_indexer`.  `jsonLoads` is the `json.loads` of the
standard library (`none` models `json.JSONDecodeError`); a missing or
unparseable `tags_json` degrades to the empty list. -/
def exportForIndexer (jsonLoads : String → Option Jv) (db : Db)
    (kbArticleId : String) : Except String ExportRecord := do
  let article ← getPublishedArticle db kbArticleId
  let tags := match article.tags_json with
    | none => Jv.arr []
    | some s =>
      match jsonLoads s with
      | some v => v
      | none => Jv.arr []
  return {
    kb_article_id := article.kb_article_id, title := article.title,
    body_markdown := article.body_markdown, module := article.module,
    category := article.category, tags := tags,
    source_type := article.source_type,
    source_ticket_id := article.source_ticket_id,
    version := article.current_version,
    lineage_draft_id := article.latest_draft_id }

/-- The bundle `generator.build_case_bundle` assembles. -/
structure Bundle where
  ticket : TicketRow
  conversations : List ConversationRow
  scripts : List ScriptRow
  placeholders : List PlaceholderRow
  evidence_units : List EvidenceUnit
deriving Repr, DecidableEq

/-- `generator.build_case_bundle` (the sqlite/raw dialect branches read the
same columns and are collapsed; ticket-scoped units are extended with every
PLACEHOLDER unit, duplicates allowed, as in the source). -/
def buildCaseBundle (db : Db) (ticketId : String) : Except String Bundle :=
  match db.raw_tickets.filter (fun t => t.ticket_number = ticketId) with
  | [] => .error ("Ticket not found: " ++ ticketId)
  | ticket :: _ =>
    let conversations := db.raw_conversations.filter
      (fun c => c.ticket_number = ticketId)
    let scripts := if ticket.script_id ≠ "" then
      db.raw_scripts.filter (fun s => s.script_id = ticket.script_id) else []
    let sourceIds := ticketId ::
      ((conversations.map (·.conversation_id)).filter (fun i => i ≠ "") ++
        (if ticket.script_id ≠ "" then [ticket.script_id] else []))
    let units := db.evidence_units.filter
        (fun eu => decide (eu.source_id ∈ sourceIds)) ++
      db.evidence_units.filter (fun eu => eu.source_type = "PLACEHOLDER")
    .ok { ticket := ticket, conversations := conversations,
          scripts := scripts, placeholders := db.raw_placeholders,
          evidence_units := units }

/-- `generator._group_evidence_by_field` followed by indexing: the group for
one field, sorted by `(source_id, char_offset_start)` (a stable Python
sort). -/
def evidenceByField (units : List EvidenceUnit) (field : String) :
    List EvidenceUnit :=
  sortByLe (fun a b => decide (a.source_id < b.source_id) ||
      (a.source_id = b.source_id && a.char_offset_start ≤ b.char_offset_start))
    (units.filter (fun u => u.field_name = field))

/-- `generator._concat_snippets`. -/
def concatSnippets (units : List EvidenceUnit) : String :=
  pyStrip (String.intercalate " "
    ((units.map (fun u => pyStrip u.snippet_text)).filter (fun s => s ≠ "")))

/-- Token loop of `generator._build_placeholders_needed` (no used-id
exclusion and no dedup in this variant, unlike the rlm one). -/
def genPhTokenLoop (scriptEvidence phUnits : List EvidenceUnit)
    (placeholders : List PlaceholderRow)
    (found : List (String × PlaceholderNeed)) :
    List String → List (String × PlaceholderNeed)
  | [] => found
  | token :: rest =>
    let ids := ((scriptEvidence.filter (fun eu =>
        strContains eu.snippet_text token)).map (·.evidence_unit_id)) ++
      (match lastBySourceId phUnits token with
       | some eu => [eu.evidence_unit_id]
       | none => [])
    let need : PlaceholderNeed :=
      { placeholder := token, meaning := lastMeaning placeholders token,
        evidence_unit_ids := ids }
    genPhTokenLoop scriptEvidence phUnits placeholders
      (assocSet found token need) rest

/-- Script loop of `generator._build_placeholders_needed`. -/
def genPhScriptLoop (scriptEvidence phUnits : List EvidenceUnit)
    (placeholders : List PlaceholderRow)
    (found : List (String × PlaceholderNeed)) :
    List ScriptRow → List (String × PlaceholderNeed)
  | [] => found
  | s :: rest =>
    genPhScriptLoop scriptEvidence phUnits placeholders
      (genPhTokenLoop scriptEvidence phUnits placeholders found
        (dedupeIds (findTokens s.script_text_sanitized.data))) rest

/-- `generator._build_placeholders_needed`. -/
def genPlaceholdersNeeded (scripts : List ScriptRow)
    (placeholders : List PlaceholderRow) (units : List EvidenceUnit) :
    List PlaceholderNeed :=
  (genPhScriptLoop
    (units.filter (fun eu => eu.field_name = "Script_Text_Sanitized"))
    (units.filter (fun eu => eu.source_type = "PLACEHOLDER"))
    placeholders [] scripts).map (·.2)

/-- `generator.build_case_json_deterministic`. -/
def buildCaseJsonDeterministic (bundle : Bundle) : CaseJSON :=
  let units := bundle.evidence_units
  let descUnits := evidenceByField units "Description"
  let symptomUnits := evidenceByField units "Issue_Summary"
  let rootUnits := evidenceByField units "Root_Cause"
  let resolutionUnits := evidenceByField units "Resolution"
  let problemText := concatSnippets descUnits
  let symptomsText := concatSnippets symptomUnits
  let rootText := concatSnippets rootUnits
  let resolutionSteps := stepsFromEvidence resolutionUnits
  let verificationSteps := filterVerificationSteps resolutionSteps
  let placeholdersNeeded := genPlaceholdersNeeded bundle.scripts
    bundle.placeholders units
  { ticket_id := pyStrip bundle.ticket.ticket_number,
    title := orDefault bundle.ticket.subject "Untitled",
    product := orDefault bundle.ticket.product "N/A",
    module := orDefault bundle.ticket.module "N/A",
    category := orDefault bundle.ticket.category "N/A",
    problem := if problemText = "" then "N/A" else problemText,
    symptoms := if symptomsText = "" then [] else [symptomsText],
    environment := none,
    root_cause := if rootText = "" then none else some rootText,
    resolution_steps := resolutionSteps,
    verification_steps := verificationSteps,
    when_to_escalate := [],
    placeholders_needed := placeholdersNeeded,
    evidence_sources := buildEvidenceSources
      (descUnits.map (·.evidence_unit_id))
      (symptomUnits.map (·.evidence_unit_id))
      (rootUnits.map (·.evidence_unit_id))
      resolutionSteps verificationSteps placeholdersNeeded }

/-- `generator._evidence_ids_subset`: the citation-integrity gate of the
LLM path.  It inspects only step and placeholder citation lists — not the
`evidence_sources` index. -/
def evidenceIdsSubset (cj : CaseJSON) (knownIds : List String) : Bool :=
  (cj.resolution_steps ++ cj.verification_steps).all (fun st =>
    st.evidence_unit_ids.all (fun eid => decide (eid ∈ knownIds))) &&
  cj.placeholders_needed.all (fun p =>
    p.evidence_unit_ids.all (fun eid => decide (eid ∈ knownIds)))

/-- The external whole-document collaborator of `build_case_json_llm`: a
parsed, schema-valid `CaseJSON` or `none` for every failure branch
(missing key, import failure, JSON error, validation error). -/
def LlmCollab : Type :=
  Bundle → Option CaseJSON

/-- `generator.build_case_json_llm`.  `apiKey` is the truthiness of the
`api_key` argument. -/
def buildCaseJsonLlm (bundle : Bundle) (apiKey : Bool) (collab : LlmCollab) :
    CaseJSON :=
  if !apiKey then buildCaseJsonDeterministic bundle
  else
    match collab bundle with
    | none => buildCaseJsonDeterministic bundle
    | some cj =>
      if !evidenceIdsSubset cj (bundle.evidence_units.map (·.evidence_unit_id))
      then buildCaseJsonDeterministic bundle
      else if cj.evidence_sources.isEmpty then
        { cj with
          evidence_sources := buildEvidenceSources [] [] []
            cj.resolution_steps cj.verification_steps cj.placeholders_needed }
      else cj

/-- The oracles `generate_kb_draft` may consult: the per-section rlm
collaborator, the whole-document LLM collaborator, the single-call quality
writer (`_generate_quality_article`; `none` covers its failure path), and
the markdown renderer (`templates.render_kb_draft`, presentation-layer per
the spec's scope, abstracted as a function of the document). -/
structure GenEnv where
  rlmCollab : Option RlmCollab
  llmCollab : LlmCollab
  quality : CaseJSON → Option String
  render : CaseJSON → String

/-- The synthesis half of `generator.generate_kb_draft`: mode dispatch,
quality-article attempt, markdown rendering; yields
`(case_json, body_markdown, generation_tag, rlm_trace)`. -/
def genSynthesis (env : GenEnv) (db : Db) (ticketId : String)
    (apiKey : Bool) (generationMode : String) :
    Except String (CaseJSON × String × String × Option RlmTrace) :=
  if generationMode = "rlm" then
    match buildCaseJsonRlm db.evidence_units db.raw_tickets
        db.raw_conversations db.raw_scripts db.raw_placeholders
        env.rlmCollab ticketId with
    | .error e => .error e
    | .ok (cj, rlmTrace) =>
      if apiKey then
        match env.quality cj with
        | some body => .ok (cj, body, "rlm_quality", some rlmTrace)
        | none =>
          .ok (cj, env.render cj, rlmTrace.generation_mode, some rlmTrace)
      else .ok (cj, env.render cj, rlmTrace.generation_mode, some rlmTrace)
  else
    match buildCaseBundle db ticketId with
    | .error e => .error e
    | .ok bundle =>
      let cj := buildCaseJsonLlm bundle apiKey env.llmCollab
      .ok (cj, env.render cj, "deterministic", (none : Option RlmTrace))

/-- `generator.generate_kb_draft`, with the draft record carrying the
`generation_mode` / `rlm_trace_json` columns of the *table* schema
(`db/__init__.py`).  The ORM class omits them, so the real constructor call
raises `TypeError` — the C4/C9 code bug; this embedding is the
schema-complete intent. -/
def generateKbDraft (env : GenEnv) (db : Db) (ticketId : String)
    (apiKey : Bool) (generationMode : String) (now : Nat) :
    Except String (KBDraft × CaseJSON × Db) := do
  let (cj, bodyMarkdown, generationTag, rlmTraceJson) ←
    genSynthesis env db ticketId apiKey generationMode
  let draftId := freshUuid db.next_uuid
  let db1 := { db with next_uuid := db.next_uuid + 1 }
  let (db2, _) ← supersedeOtherDrafts db1 cj.ticket_id draftId
    "Superseded by newer draft generation." none ["draft", "approved"] now
  let draft : KBDraft :=
    { draft_id := draftId, ticket_id := cj.ticket_id, title := cj.title,
      body_markdown := bodyMarkdown, case_json := some cj, status := "draft",
      reviewer := none, reviewed_at := none, review_notes := none,
      published_at := none, generation_mode := generationTag,
      rlm_trace_json := rlmTraceJson }
  let ev := mkEvent (freshUuid db2.next_uuid) "draft_generated"
    (some draft.draft_id) (some cj.ticket_id)
  return (draft, cj, { db2 with
    kb_drafts := db2.kb_drafts ++ [draft],
    events := db2.events ++ [ev],
    next_uuid := db2.next_uuid + 1 })

/-- Shared concrete fixture: a small evidence store for ticket CS-1. -/
def demoStore : List EvidenceUnit :=
  [{ evidence_unit_id := "EU-D0", source_type := "TICKET", source_id := "CS-1",
     field_name := "Description", char_offset_start := 0, char_offset_end := 18,
     chunk_index := 0, snippet_text := "User cannot login." },
   { evidence_unit_id := "EU-R0", source_type := "TICKET", source_id := "CS-1",
     field_name := "Resolution", char_offset_start := 0, char_offset_end := 11,
     chunk_index := 0, snippet_text := "Reset token" },
   { evidence_unit_id := "EU-R1", source_type := "TICKET", source_id := "CS-1",
     field_name := "Resolution", char_offset_start := 12, char_offset_end := 24,
     chunk_index := 1, snippet_text := "Verify login" }]

/-- Shared concrete fixture: the CS-1 ticket row. -/
def demoTicket : TicketRow :=
  { ticket_number := "CS-1", subject := "Login fails", product := "ExampleCo",
    module := "Auth", category := "Login",
    description := "User cannot login.", root_cause := "",
    resolution := "Reset token", script_id := "" }

/-- The assembled rlm output for the demo fixture (collaborator absent). -/
def demoRlmOut : CaseJSON × RlmTrace :=
  rlmAssemble demoStore demoTicket [] [] [] none "CS-1"

/-- Shared concrete fixture: the database holding `demoStore` and CS-1. -/
def demoDb : Db :=
  { evidence_units := demoStore, raw_tickets := [demoTicket],
    raw_conversations := [], raw_scripts := [], raw_placeholders := [],
    kb_drafts := [], articles := [], versions := [], events := [],
    next_uuid := 0 }

/-- The bundle `build_case_bundle` assembles for CS-1 over `demoDb`. -/
def c1Bundle : Bundle :=
  { ticket := demoTicket, conversations := [], scripts := [],
    placeholders := [], evidence_units := demoStore }

/-- A collaborator answer whose step citations are legal but whose
`evidence_sources` index smuggles an id that is in no evidence store. -/
def c1BadDoc : CaseJSON :=
  { ticket_id := "CS-1", title := "Login fails", product := "N/A",
    module := "Auth", category := "Login", problem := "User cannot login.",
    symptoms := [], environment := none, root_cause := none,
    resolution_steps := [{ text := "Reset token",
                           evidence_unit_ids := ["EU-R0"] }],
    verification_steps := [], when_to_escalate := [],
    placeholders_needed := [],
    evidence_sources := ["problem: BOGUS-1"] }

/-- The collaborator oracle returning `c1BadDoc`. -/
def c1Collab : LlmCollab := fun _ => some c1BadDoc

/-- A surviving candidate whose snippet is whitespace only. -/
def c8BlankUnit : EvidenceUnit :=
  { evidence_unit_id := "EU-BLANK", source_type := "TICKET",
    source_id := "CS-1", field_name := "Resolution", char_offset_start := 0,
    char_offset_end := 3, chunk_index := 0, snippet_text := "   " }

/-- Fixture: a rejected draft (terminal state). -/
def c3RejectedDraft : KBDraft :=
  { draft_id := "D-REJ", ticket_id := "CS-2", title := "T",
    body_markdown := "B", case_json := none, status := "rejected",
    reviewer := none, reviewed_at := none, review_notes := none,
    published_at := none, generation_mode := "deterministic",
    rlm_trace_json := none }

/-- Fixture: a draft-status draft awaiting review. -/
def c3ActiveDraft : KBDraft :=
  { draft_id := "D-ACT", ticket_id := "CS-3", title := "T2",
    body_markdown := "B2", case_json := none, status := "draft",
    reviewer := none, reviewed_at := none, review_notes := none,
    published_at := none, generation_mode := "deterministic",
    rlm_trace_json := none }

/-- Fixture: database with the two governance drafts. -/
def c3Db : Db :=
  { demoDb with kb_drafts := [c3RejectedDraft, c3ActiveDraft] }

/-- Fixture: an approved, not-yet-published draft. -/
def c5Draft : KBDraft :=
  { draft_id := "D-APP", ticket_id := "CS-5", title := "Fix login",
    body_markdown := "Body A", case_json := none, status := "approved",
    reviewer := some "rev", reviewed_at := some 3, review_notes := none,
    published_at := none, generation_mode := "deterministic",
    rlm_trace_json := none }

/-- Fixture: database with the approved draft. -/
def c5Db : Db :=
  { demoDb with kb_drafts := [c5Draft] }

/-- Fixture: published article at version 2 (body "B"), rolled back later. -/
def c6Article : PublishedKBArticle :=
  { kb_article_id := "ART-1", latest_draft_id := "DB", title := "T",
    body_markdown := "B", module := "Auth", category := "Login",
    tags_json := none, source_type := "learned", source_ticket_id := "CS-1",
    current_version := 2, created_at := 1, updated_at := 2 }

/-- Fixture: version-1 row, body "A". -/
def c6V1 : KBArticleVersion :=
  { version_id := "V-1", kb_article_id := "ART-1", version := 1,
    source_draft_id := some "DA", body_markdown := "A", title := "T",
    reviewer := some "rev", change_note := none, is_rollback := false,
    created_at := 1 }

/-- Fixture: version-2 row, body "B". -/
def c6V2 : KBArticleVersion :=
  { version_id := "V-2", kb_article_id := "ART-1", version := 2,
    source_draft_id := some "DB", body_markdown := "B", title := "T",
    reviewer := some "rev", change_note := none, is_rollback := false,
    created_at := 2 }

/-- Fixture: database in the state of the rollback scenario. -/
def c6Db : Db :=
  { demoDb with articles := [c6Article], versions := [c6V1, c6V2] }

/-- The edge table an invocation leaves behind (`commit` on success, the
rolled-back table on an integrity error). -/
def lineageStoreAfter
    (r : Except String (List KBLineageEdge × List KBLineageEdge))
    (fallback : List KBLineageEdge) : List KBLineageEdge :=
  match r with
  | .ok p => p.2
  | .error _ => fallback

/-- A case document citing one TICKET-sourced unit in its resolution step. -/
def c7Doc : CaseJSON :=
  { ticket_id := "CS-1", title := "Login fails", product := "N/A",
    module := "Auth", category := "Login", problem := "User cannot login.",
    symptoms := [], environment := none, root_cause := none,
    resolution_steps := [{ text := "Reset token",
                           evidence_unit_ids := ["EU-R0"] }],
    verification_steps := [], when_to_escalate := [],
    placeholders_needed := [],
    evidence_sources := ["resolution_steps: EU-R0"] }

/-- The edges the first derivation writes for `c7Doc`. -/
def c7Es : List KBLineageEdge :=
  match writeLineageEdges demoStore "D1" c7Doc [] with
  | .ok p => p.1
  | .error _ => []

/-- The edge table after the first derivation for `c7Doc`. -/
def c7Edges1 : List KBLineageEdge :=
  match writeLineageEdges demoStore "D1" c7Doc [] with
  | .ok p => p.2
  | .error _ => []

/-- Fixture: a published article whose `tags_json` is not valid JSON. -/
def c10Article : PublishedKBArticle :=
  { kb_article_id := "ART-2", latest_draft_id := "D-P", title := "T",
    body_markdown := "B", module := "Auth", category := "Login",
    tags_json := some "\x7bnot-json", source_type := "learned",
    source_ticket_id := "CS-1", current_version := 1, created_at := 1,
    updated_at := 1 }

/-- Fixture: database holding the malformed-tags article. -/
def c10Db : Db :=
  { demoDb with articles := [c10Article] }

/-- The drafts of a ticket still under consideration (`draft`/`approved`). -/
def activeDraftsFor (drafts : List KBDraft) (tid : String) : List KBDraft :=
  drafts.filter (fun d => d.ticket_id = tid &&
    decide (d.status ∈ (["draft", "approved"] : List String)))

/-- Occurrences of an audit event type for one draft id. -/
def countEvents (events : List LearningEvent) (ty did : String) : Nat :=
  (events.filter (fun e => e.event_type = ty && e.draft_id = some did)).length

/-- Fixture: trivial generation collaborators (no external services
reachable: every oracle declines). -/
def demoEnv : GenEnv :=
  { rlmCollab := none, llmCollab := fun _ => none,
    quality := fun _ => none, render := fun cj => cj.title }

/-- Fixture: a prior `draft`-status draft for CS-1, to be superseded by the
next generation. -/
def c4PriorDraft : KBDraft :=
  { draft_id := "D-OLD", ticket_id := "CS-1", title := "Old",
    body_markdown := "Old body", case_json := none, status := "draft",
    reviewer := none, reviewed_at := none, review_notes := none,
    published_at := none, generation_mode := "deterministic",
    rlm_trace_json := none }

/-- Fixture: the demo database holding one active draft for CS-1. -/
def c4Db : Db :=
  { demoDb with kb_drafts := [c4PriorDraft] }

/-- The synthesis outcome of the C4 fixture run (the fallback arm is
unreachable: the fixture synthesis succeeds). -/
def c4SynOut : CaseJSON × String × String × Option RlmTrace :=
  match genSynthesis demoEnv c4Db "CS-1" false "rlm" with
  | .ok p => p
  | .error _ => (demoRlmOut.1, "", "rlm", none)

theorem mem_dedupeAux {x : String} {seen l : List String} :
    x ∈ dedupeAux seen l ↔ x ∈ l ∧ x ∉ seen := by
  induction l generalizing seen with
  | nil => simp [dedupeAux]
  | cons y ys ih =>
    by_cases hy : y ∈ seen
    · simp only [dedupeAux, if_pos hy, ih, List.mem_cons]
      constructor
      · rintro ⟨h, hn⟩; exact ⟨Or.inr h, hn⟩
      · rintro ⟨h | h, hn⟩
        · exact absurd (h ▸ hy) hn
        · exact ⟨h, hn⟩
    · simp only [dedupeAux, if_neg hy, List.mem_cons, ih]
      constructor
      · rintro (rfl | ⟨h, hn⟩)
        · exact ⟨Or.inl rfl, hy⟩
        · exact ⟨Or.inr h, fun hc => hn (Or.inr hc)⟩
      · rintro ⟨rfl | h, hn⟩
        · exact Or.inl rfl
        · by_cases hxy : x = y
          · exact Or.inl hxy
          · exact Or.inr ⟨h, fun hc => hc.elim hxy hn⟩

theorem mem_dedupeIds {x : String} {l : List String} :
    x ∈ dedupeIds l ↔ x ∈ l := by
  simp [dedupeIds, mem_dedupeAux]

theorem mem_setUpdate {x : String} {used ids : List String} :
    x ∈ setUpdate used ids ↔ x ∈ used ∨ x ∈ ids := by
  simp only [setUpdate, List.mem_append, List.mem_filter, decide_eq_true_iff]
  constructor
  · rintro (h | ⟨h, _⟩)
    · exact Or.inl h
    · exact Or.inr h
  · rintro (h | h)
    · exact Or.inl h
    · by_cases hu : x ∈ used
      · exact Or.inl hu
      · exact Or.inr ⟨h, hu⟩

theorem mem_insertLe {α : Type} {le : α → α → Bool} {a x : α} {l : List α} :
    x ∈ insertLe le a l ↔ x = a ∨ x ∈ l := by
  induction l with
  | nil => simp [insertLe]
  | cons b bs ih =>
    by_cases h : le a b
    · simp [insertLe, h, List.mem_cons]
    · simp only [insertLe, if_neg h, List.mem_cons, ih]
      tauto

theorem mem_sortByLe {α : Type} {le : α → α → Bool} {x : α} {l : List α} :
    x ∈ sortByLe le l ↔ x ∈ l := by
  induction l with
  | nil => simp [sortByLe]
  | cons a as₁ ih => simp [sortByLe, mem_insertLe, ih]

theorem selectCandidates_subset_store {store : List EvidenceUnit} {s : String}
    {src kw : List String} {lim : Nat} {eu : EvidenceUnit}
    (h : eu ∈ selectCandidatesForSection store s src kw lim) : eu ∈ store := by
  unfold selectCandidatesForSection at h
  rcases hr : SECTION_RULES s with _ | ⟨st, fn⟩ <;> rw [hr] at h
  · simp at h
  · have h' := List.mem_of_mem_take h
    by_cases hk : kw.isEmpty <;> simp only [hk, if_true, if_false] at h' <;>
      exact (List.mem_filter.mp (mem_sortByLe.mp h')).1

theorem fallback_subset_store {store : List EvidenceUnit}
    {src excl : List String} {eu : EvidenceUnit}
    (h : eu ∈ fallbackTicketCandidates store src excl) : eu ∈ store := by
  unfold fallbackTicketCandidates at h
  by_cases hs : src.isEmpty <;> simp only [hs, if_true, if_false] at h
  · simp at h
  · exact (List.mem_filter.mp
      (mem_sortByLe.mp (List.mem_of_mem_take (List.mem_filter.mp h).1))).1

theorem fallback_not_used {store : List EvidenceUnit}
    {src excl : List String} {eu : EvidenceUnit}
    (h : eu ∈ fallbackTicketCandidates store src excl) :
    eu.evidence_unit_id ∉ excl := by
  unfold fallbackTicketCandidates at h
  by_cases hs : src.isEmpty <;> simp only [hs, if_true, if_false] at h
  · simp at h
  · exact decide_eq_true_iff.mp (List.mem_filter.mp h).2

theorem sectionCandidates_subset_store {store : List EvidenceUnit}
    {sec : String} {src kw used : List String} {eu : EvidenceUnit}
    (h : eu ∈ sectionCandidates store sec src kw used) : eu ∈ store := by
  simp only [sectionCandidates] at h
  split at h
  · exact fallback_subset_store h
  · exact selectCandidates_subset_store (List.mem_filter.mp h).1

theorem sectionCandidates_not_used {store : List EvidenceUnit}
    {sec : String} {src kw used : List String} {eu : EvidenceUnit}
    (h : eu ∈ sectionCandidates store sec src kw used) :
    eu.evidence_unit_id ∉ used := by
  simp only [sectionCandidates] at h
  split at h
  · exact fallback_not_used h
  · exact decide_eq_true_iff.mp (List.mem_filter.mp h).2

theorem synthOpenai_selected_sub {f : RlmCollab} {sec : String}
    {cands : List EvidenceUnit} {x : String}
    (h : x ∈ (synthesizeSectionOpenai f sec cands).2) :
    x ∈ cands.map (·.evidence_unit_id) := by
  unfold synthesizeSectionOpenai at h
  rcases hf : f sec cands with _ | r <;> rw [hf] at h
  · simp at h
  · simp only at h
    split at h
    · simp at h
    · have hx := mem_dedupeIds.mp h
      exact decide_eq_true_iff.mp (List.mem_filter.mp hx).2

theorem synthDet_selected_sub {cands : List EvidenceUnit} {x : String}
    (h : x ∈ (synthesizeSectionDeterministic cands).2) :
    x ∈ cands.map (·.evidence_unit_id) := by
  unfold synthesizeSectionDeterministic at h
  simpa using mem_dedupeIds.mp h

theorem sectionTextOutput_sub {collab : Option RlmCollab} {sec : String}
    {cands : List EvidenceUnit} {x : String}
    (h : x ∈ (sectionTextOutput collab sec cands).2) :
    x ∈ cands.map (·.evidence_unit_id) := by
  unfold sectionTextOutput at h
  rcases collab with _ | f
  · simp only [if_pos rfl] at h
    exact synthDet_selected_sub h
  · by_cases hempty : cands.isEmpty
    · simp only [hempty, if_true, if_pos rfl] at h
      exact synthDet_selected_sub h
    · simp only [hempty, if_false, Bool.false_eq_true] at h
      split at h
      · exact synthDet_selected_sub h
      · exact synthOpenai_selected_sub h

theorem bts_selected_sub {store : List EvidenceUnit} {collab : Option RlmCollab}
    {sec : String} {src kw used : List String} {x : String}
    (h : x ∈ (buildTextSection store collab sec src kw used).selected_ids) :
    x ∈ (sectionCandidates store sec src kw used).map (·.evidence_unit_id) := by
  unfold buildTextSection at h
  exact sectionTextOutput_sub h

theorem bts_selected_store {store : List EvidenceUnit}
    {collab : Option RlmCollab} {sec : String} {src kw used : List String}
    {x : String}
    (h : x ∈ (buildTextSection store collab sec src kw used).selected_ids) :
    x ∈ storeIds store := by
  obtain ⟨eu, heu, rfl⟩ := List.mem_map.mp (bts_selected_sub h)
  exact List.mem_map.mpr ⟨eu, sectionCandidates_subset_store heu, rfl⟩

theorem bts_selected_not_used {store : List EvidenceUnit}
    {collab : Option RlmCollab} {sec : String} {src kw used : List String}
    {x : String}
    (h : x ∈ (buildTextSection store collab sec src kw used).selected_ids) :
    x ∉ used := by
  obtain ⟨eu, heu, rfl⟩ := List.mem_map.mp (bts_selected_sub h)
  exact sectionCandidates_not_used heu

theorem bts_used_after {store : List EvidenceUnit} {collab : Option RlmCollab}
    {sec : String} {src kw used : List String} {x : String} :
    x ∈ (buildTextSection store collab sec src kw used).used_after ↔
      x ∈ used ∨
        x ∈ (buildTextSection store collab sec src kw used).selected_ids := by
  unfold buildTextSection
  exact mem_setUpdate

theorem stepsFromEvidence_ids_sub {units : List EvidenceUnit} {x : String}
    (h : x ∈ (stepsFromEvidence units).flatMap (·.evidence_unit_ids)) :
    x ∈ units.map (·.evidence_unit_id) := by
  induction units with
  | nil => simp [stepsFromEvidence] at h
  | cons u rest ih =>
    rw [stepsFromEvidence] at h
    split at h
    · simp [ih h]
    · rw [List.flatMap_cons] at h
      rcases List.mem_append.mp h with h1 | h2
      · simp only [List.mem_singleton] at h1
        simp [h1]
      · simp [ih h2]

theorem brs_step_ids_sub {store : List EvidenceUnit} {src kw used : List String}
    {x : String}
    (h : x ∈ (buildResolutionSteps store src kw used).steps.flatMap
      (·.evidence_unit_ids)) :
    x ∈ (sectionCandidates store "resolution_steps" src kw used).map
      (·.evidence_unit_id) := by
  unfold buildResolutionSteps at h
  exact stepsFromEvidence_ids_sub h

theorem brs_selected_eq {store : List EvidenceUnit}
    {src kw used : List String} :
    (buildResolutionSteps store src kw used).selected_ids =
      dedupeIds ((buildResolutionSteps store src kw used).steps.flatMap
        (·.evidence_unit_ids)) := rfl

theorem brs_used_after {store : List EvidenceUnit} {src kw used : List String}
    {x : String} :
    x ∈ (buildResolutionSteps store src kw used).used_after ↔
      x ∈ used ∨ x ∈ (buildResolutionSteps store src kw used).selected_ids := by
  unfold buildResolutionSteps
  exact mem_setUpdate

theorem filterVerification_eq_filter (steps : List Step) :
    filterVerificationSteps steps =
      steps.filter (fun st => isVerificationText st.text) := by
  induction steps with
  | nil => rfl
  | cons st rest ih =>
    rw [filterVerificationSteps, List.filter_cons]
    by_cases h : isVerificationText st.text <;> simp [h, ih]

theorem filterVerification_sublist (steps : List Step) :
    (filterVerificationSteps steps).Sublist steps := by
  rw [filterVerification_eq_filter]
  exact List.filter_sublist _

theorem filterVerification_ids_sub {steps : List Step} {x : String}
    (h : x ∈ (filterVerificationSteps steps).flatMap (·.evidence_unit_ids)) :
    x ∈ steps.flatMap (·.evidence_unit_ids) := by
  rw [List.mem_flatMap] at h ⊢
  obtain ⟨st, hst, hx⟩ := h
  exact ⟨st, (filterVerification_sublist steps).mem hst, hx⟩

theorem assocSet_mem {l : List (String × PlaceholderNeed)} {k : String}
    {v : PlaceholderNeed} {pr : String × PlaceholderNeed}
    (h : pr ∈ assocSet l k v) : pr.2 = v ∨ pr ∈ l := by
  unfold assocSet at h
  split at h
  · obtain ⟨p, hp, hpr⟩ := List.mem_map.mp h
    by_cases hk : p.1 = k
    · rw [if_pos hk] at hpr
      exact Or.inl (by rw [← hpr])
    · rw [if_neg hk] at hpr
      exact Or.inr (hpr ▸ hp)
  · rcases List.mem_append.mp h with h1 | h2
    · exact Or.inr h1
    · exact Or.inl (by simpa using congrArg Prod.snd (List.mem_singleton.mp h2))

theorem lastBySourceId_mem {rows : List EvidenceUnit} {sid : String}
    {eu : EvidenceUnit} (h : lastBySourceId rows sid = some eu) : eu ∈ rows := by
  unfold lastBySourceId at h
  exact List.mem_of_mem_filter (List.mem_of_mem_getLast? h)

theorem placeholderIdsForToken_spec {sEU pEU : List EvidenceUnit}
    {used : List String} {t x : String}
    (h : x ∈ placeholderIdsForToken sEU pEU used t) :
    x ∈ (sEU ++ pEU).map (·.evidence_unit_id) ∧ x ∉ used := by
  unfold placeholderIdsForToken at h
  have h' := mem_dedupeIds.mp h
  rcases List.mem_append.mp h' with h1 | h2
  · obtain ⟨eu, heu, rfl⟩ := List.mem_map.mp h1
    have hf := List.mem_filter.mp heu
    have hcond := hf.2
    simp only [Bool.and_eq_true, decide_eq_true_iff] at hcond
    exact ⟨List.mem_map.mpr ⟨eu, List.mem_append.mpr (Or.inl hf.1), rfl⟩,
      hcond.2⟩
  · rcases hl : lastBySourceId pEU t with _ | eu <;> rw [hl] at h2
    · simp at h2
    · replace h2 : x ∈ (if eu.evidence_unit_id ∈ used then []
        else [eu.evidence_unit_id]) := h2
      by_cases hu : eu.evidence_unit_id ∈ used
      · rw [if_pos hu] at h2
        simp at h2
      · rw [if_neg hu] at h2
        have hx := List.mem_singleton.mp h2
        subst hx
        exact ⟨List.mem_map.mpr ⟨eu,
          List.mem_append.mpr (Or.inr (lastBySourceId_mem hl)), rfl⟩, hu⟩

theorem phTokenLoop_inv {sEU pEU : List EvidenceUnit}
    {placeholders : List PlaceholderRow} {used0 : List String}
    (tokens : List String) (found : List (String × PlaceholderNeed))
    (used : List String)
    (hfound : ∀ pr ∈ found, ∀ x ∈ pr.2.evidence_unit_ids,
      x ∈ (sEU ++ pEU).map (·.evidence_unit_id) ∧ x ∉ used0)
    (hused : ∀ x ∈ used0, x ∈ used) :
    (∀ pr ∈ (placeholderTokenLoop sEU pEU placeholders found used tokens).1,
      ∀ x ∈ pr.2.evidence_unit_ids,
        x ∈ (sEU ++ pEU).map (·.evidence_unit_id) ∧ x ∉ used0) ∧
    (∀ x ∈ used0,
      x ∈ (placeholderTokenLoop sEU pEU placeholders found used tokens).2) := by
  induction tokens generalizing found used with
  | nil => exact ⟨hfound, hused⟩
  | cons t rest ih =>
    rw [placeholderTokenLoop]
    apply ih
    · intro pr hpr x hx
      rcases assocSet_mem hpr with h1 | h2
      · rw [h1] at hx
        simp only at hx
        have := placeholderIdsForToken_spec hx
        exact ⟨this.1, fun hc => this.2 (hused _ hc)⟩
      · exact hfound pr h2 x hx
    · intro x hx
      by_cases hids : (placeholderIdsForToken sEU pEU used t).isEmpty
      · simpa [hids] using hused x hx
      · simp only [hids, Bool.false_eq_true, if_false]
        exact mem_setUpdate.mpr (Or.inl (hused x hx))

theorem phScriptLoop_inv {sEU pEU : List EvidenceUnit}
    {placeholders : List PlaceholderRow} {used0 : List String}
    (scripts : List ScriptRow) (found : List (String × PlaceholderNeed))
    (used : List String)
    (hfound : ∀ pr ∈ found, ∀ x ∈ pr.2.evidence_unit_ids,
      x ∈ (sEU ++ pEU).map (·.evidence_unit_id) ∧ x ∉ used0)
    (hused : ∀ x ∈ used0, x ∈ used) :
    ∀ pr ∈ (placeholderScriptLoop sEU pEU placeholders found used scripts).1,
      ∀ x ∈ pr.2.evidence_unit_ids,
        x ∈ (sEU ++ pEU).map (·.evidence_unit_id) ∧ x ∉ used0 := by
  induction scripts generalizing found used with
  | nil => exact hfound
  | cons s rest ih =>
    rw [placeholderScriptLoop]
    have hstep := @phTokenLoop_inv sEU pEU placeholders used0
      (dedupeIds (findTokens s.script_text_sanitized.data)) found used hfound
      hused
    exact ih _ _ hstep.1 hstep.2

theorem buildPlaceholders_selected_spec {store : List EvidenceUnit}
    {scripts : List ScriptRow} {placeholders : List PlaceholderRow}
    {used0 : List String} {x : String}
    (h : x ∈ (buildPlaceholdersNeeded store scripts placeholders
      used0).selected_ids) :
    x ∈ storeIds store ∧ x ∉ used0 := by
  unfold buildPlaceholdersNeeded at h
  have h' := mem_dedupeIds.mp h
  rw [List.mem_flatMap] at h'
  obtain ⟨need, hneed, hx⟩ := h'
  obtain ⟨pr, hpr, hpr2⟩ := List.mem_map.mp hneed
  have hinv := @phScriptLoop_inv _ _ _ used0 scripts [] used0
    (by intro pr h; simp at h) (fun _ hx => hx) pr hpr x (hpr2 ▸ hx)
  refine ⟨?_, hinv.2⟩
  obtain ⟨eu, heu, rfl⟩ := List.mem_map.mp hinv.1
  rcases List.mem_append.mp heu with h1 | h2
  · split at h1
    · simp at h1
    · exact List.mem_map.mpr ⟨eu, List.mem_of_mem_filter h1, rfl⟩
  · split at h2
    · simp at h2
    · exact List.mem_map.mpr ⟨eu, List.mem_of_mem_filter h2, rfl⟩

theorem rlmChain_spec (store : List EvidenceUnit) (collab : Option RlmCollab)
    (src kw : List String) (scripts : List ScriptRow)
    (placeholders : List PlaceholderRow)
    (p s rc : SectionResult) (r : StepsResult) (ph : PlaceholdersResult)
    (hp : p = buildTextSection store collab "problem" src kw [])
    (hs : s = buildTextSection store collab "symptoms" src kw p.used_after)
    (hrc : rc = buildTextSection store collab "root_cause" src kw s.used_after)
    (hr : r = buildResolutionSteps store src kw rc.used_after)
    (hph : ph = buildPlaceholdersNeeded store scripts placeholders
      r.used_after) :
    (List.Disjoint p.selected_ids s.selected_ids ∧
     List.Disjoint p.selected_ids rc.selected_ids ∧
     List.Disjoint s.selected_ids rc.selected_ids) ∧
    (∀ x ∈ r.steps.flatMap (·.evidence_unit_ids),
      x ∉ p.selected_ids ∧ x ∉ s.selected_ids ∧ x ∉ rc.selected_ids) ∧
    (∀ x ∈ ph.needs.flatMap (·.evidence_unit_ids),
      x ∉ p.selected_ids ∧ x ∉ s.selected_ids ∧ x ∉ rc.selected_ids ∧
        x ∉ r.steps.flatMap (·.evidence_unit_ids)) ∧
    (∀ x ∈ (filterVerificationSteps r.steps).flatMap (·.evidence_unit_ids),
      x ∈ r.steps.flatMap (·.evidence_unit_ids)) ∧
    (∀ x, (x ∈ p.selected_ids ∨ x ∈ s.selected_ids ∨ x ∈ rc.selected_ids ∨
      x ∈ r.steps.flatMap (·.evidence_unit_ids) ∨
      x ∈ ph.needs.flatMap (·.evidence_unit_ids)) → x ∈ storeIds store) := by
  have hpu : ∀ x, x ∈ p.used_after ↔ x ∈ p.selected_ids := by
    intro x
    rw [hp, bts_used_after]
    simp
  have hsu : ∀ x, x ∈ s.used_after ↔ x ∈ p.selected_ids ∨ x ∈ s.selected_ids := by
    intro x
    rw [hs, bts_used_after, ← hs, hpu]
  have hrcu : ∀ x, x ∈ rc.used_after ↔
      x ∈ p.selected_ids ∨ x ∈ s.selected_ids ∨ x ∈ rc.selected_ids := by
    intro x
    rw [hrc, bts_used_after, ← hrc, hsu]
    tauto
  have hresFlat : ∀ x ∈ r.steps.flatMap (·.evidence_unit_ids),
      x ∈ r.selected_ids := by
    intro x hx
    rw [hr, brs_selected_eq, mem_dedupeIds, ← hr]
    exact hx
  have hru : ∀ x, x ∈ r.used_after ↔
      x ∈ rc.used_after ∨ x ∈ r.selected_ids := by
    intro x
    rw [hr, brs_used_after, ← hr]
  have hresNotUsed : ∀ x ∈ r.steps.flatMap (·.evidence_unit_ids),
      x ∉ rc.used_after := by
    intro x hx
    rw [hr] at hx
    obtain ⟨eu, heu, rfl⟩ := List.mem_map.mp (brs_step_ids_sub hx)
    exact sectionCandidates_not_used heu
  have hsNot : ∀ x ∈ s.selected_ids, x ∉ p.used_after := by
    intro x hx
    rw [hs] at hx
    exact bts_selected_not_used hx
  have hrcNot : ∀ x ∈ rc.selected_ids, x ∉ s.used_after := by
    intro x hx
    rw [hrc] at hx
    exact bts_selected_not_used hx
  have hphSpec : ∀ x ∈ ph.needs.flatMap (·.evidence_unit_ids),
      x ∈ storeIds store ∧ x ∉ r.used_after := by
    intro x hx
    have hx' : x ∈ ph.selected_ids := by
      rw [hph]
      unfold buildPlaceholdersNeeded
      rw [mem_dedupeIds]
      rw [hph] at hx
      unfold buildPlaceholdersNeeded at hx
      exact hx
    rw [hph] at hx'
    exact buildPlaceholders_selected_spec hx'
  refine ⟨⟨?_, ?_, ?_⟩, ?_, ?_, ?_, ?_⟩
  · intro x hxp hxs
    exact hsNot x hxs ((hpu x).mpr hxp)
  · intro x hxp hxrc
    exact hrcNot x hxrc ((hsu x).mpr (Or.inl hxp))
  · intro x hxs hxrc
    exact hrcNot x hxrc ((hsu x).mpr (Or.inr hxs))
  · intro x hx
    have hnot := hresNotUsed x hx
    exact ⟨fun hc => hnot ((hrcu x).mpr (Or.inl hc)),
      fun hc => hnot ((hrcu x).mpr (Or.inr (Or.inl hc))),
      fun hc => hnot ((hrcu x).mpr (Or.inr (Or.inr hc)))⟩
  · intro x hx
    have hnot := (hphSpec x hx).2
    refine ⟨fun hc => hnot ((hru x).mpr (Or.inl ((hrcu x).mpr (Or.inl hc)))),
      fun hc => hnot ((hru x).mpr (Or.inl ((hrcu x).mpr (Or.inr (Or.inl hc))))),
      fun hc => hnot ((hru x).mpr (Or.inl ((hrcu x).mpr (Or.inr (Or.inr hc))))),
      fun hc => hnot ((hru x).mpr (Or.inr (hresFlat x hc)))⟩
  · intro x hx
    exact filterVerification_ids_sub hx
  · intro x hx
    rcases hx with hx | hx | hx | hx | hx
    · rw [hp] at hx
      exact bts_selected_store hx
    · rw [hs] at hx
      exact bts_selected_store hx
    · rw [hrc] at hx
      exact bts_selected_store hx
    · rw [hr] at hx
      obtain ⟨eu, heu, rfl⟩ := List.mem_map.mp (brs_step_ids_sub hx)
      exact List.mem_map.mpr ⟨eu, sectionCandidates_subset_store heu, rfl⟩
    · have hx' : x ∈ ph.needs.flatMap (·.evidence_unit_ids) := hx
      exact (hphSpec x hx').1

set_option maxHeartbeats 2000000 in
/-- C2: in a `build_case_json_rlm` document the per-section citation lists
are pairwise disjoint, except that every verification-step citation is also
a resolution-step citation (verification steps are a filtered sublist of
resolution steps).  The three text sections' citation lists are the
trace's `selected_evidence_unit_ids` (which the assembler also serialises
into `evidence_sources`); the step and placeholder sections carry their
citations inline. -/
theorem rlm_no_cross_section_reuse (store : List EvidenceUnit)
    (rawTickets : List TicketRow) (rawConversations : List ConversationRow)
    (rawScripts : List ScriptRow) (rawPlaceholders : List PlaceholderRow)
    (collab : Option RlmCollab) (ticketId : String)
    (out : CaseJSON × RlmTrace)
    (h : buildCaseJsonRlm store rawTickets rawConversations rawScripts
      rawPlaceholders collab ticketId = .ok out) :
    (List.Disjoint out.2.problem.selected_evidence_unit_ids
        out.2.symptoms.selected_evidence_unit_ids ∧
      List.Disjoint out.2.problem.selected_evidence_unit_ids
        out.2.root_cause.selected_evidence_unit_ids ∧
      List.Disjoint out.2.problem.selected_evidence_unit_ids
        (out.1.resolution_steps.flatMap (·.evidence_unit_ids)) ∧
      List.Disjoint out.2.problem.selected_evidence_unit_ids
        (out.1.placeholders_needed.flatMap (·.evidence_unit_ids))) ∧
    (List.Disjoint out.2.symptoms.selected_evidence_unit_ids
        out.2.root_cause.selected_evidence_unit_ids ∧
      List.Disjoint out.2.symptoms.selected_evidence_unit_ids
        (out.1.resolution_steps.flatMap (·.evidence_unit_ids)) ∧
      List.Disjoint out.2.symptoms.selected_evidence_unit_ids
        (out.1.placeholders_needed.flatMap (·.evidence_unit_ids))) ∧
    (List.Disjoint out.2.root_cause.selected_evidence_unit_ids
        (out.1.resolution_steps.flatMap (·.evidence_unit_ids)) ∧
      List.Disjoint out.2.root_cause.selected_evidence_unit_ids
        (out.1.placeholders_needed.flatMap (·.evidence_unit_ids))) ∧
    List.Disjoint (out.1.resolution_steps.flatMap (·.evidence_unit_ids))
      (out.1.placeholders_needed.flatMap (·.evidence_unit_ids)) ∧
    (∀ x ∈ out.1.verification_steps.flatMap (·.evidence_unit_ids),
      x ∈ out.1.resolution_steps.flatMap (·.evidence_unit_ids)) := by
  unfold buildCaseJsonRlm at h
  rcases hl : loadTicketContext rawTickets rawConversations rawScripts
      rawPlaceholders ticketId with e | ⟨ticket, conversations, scripts,
      placeholders⟩ <;> rw [hl] at h
  · exact absurd h (by simp)
  · have hout : out = rlmAssemble store ticket conversations scripts
        placeholders collab ticketId := by
      injection h with h'
      exact h'.symm
    subst hout
    obtain ⟨⟨d1, d2, d3⟩, hres, hph, hver, _⟩ := rlmChain_spec store collab
      (collectSourceIds ticketId conversations scripts)
      (extractKeywords (pyStrip ticket.subject) (pyStrip ticket.module)
        (pyStrip ticket.category))
      scripts placeholders _ _ _ _ _ rfl rfl rfl rfl rfl
    refine ⟨⟨d1, d2, ?_, ?_⟩, ⟨d3, ?_, ?_⟩, ⟨?_, ?_⟩, ?_, ?_⟩
    · intro x hxp hxres
      exact (hres x hxres).1 hxp
    · intro x hxp hxph
      exact (hph x hxph).1 hxp
    · intro x hxs hxres
      exact (hres x hxres).2.1 hxs
    · intro x hxs hxph
      exact (hph x hxph).2.1 hxs
    · intro x hxrc hxres
      exact (hres x hxres).2.2 hxrc
    · intro x hxrc hxph
      exact (hph x hxph).2.2.1 hxrc
    · intro x hxres hxph
      exact (hph x hxph).2.2.2 hxres
    · exact hver

/-- C2 witness: the demo assembly satisfies the disjointness property. -/
theorem rlm_no_cross_section_reuse_witness :
    (List.Disjoint demoRlmOut.2.problem.selected_evidence_unit_ids
        demoRlmOut.2.symptoms.selected_evidence_unit_ids ∧
      List.Disjoint demoRlmOut.2.problem.selected_evidence_unit_ids
        demoRlmOut.2.root_cause.selected_evidence_unit_ids ∧
      List.Disjoint demoRlmOut.2.problem.selected_evidence_unit_ids
        (demoRlmOut.1.resolution_steps.flatMap (·.evidence_unit_ids)) ∧
      List.Disjoint demoRlmOut.2.problem.selected_evidence_unit_ids
        (demoRlmOut.1.placeholders_needed.flatMap (·.evidence_unit_ids))) ∧
    (List.Disjoint demoRlmOut.2.symptoms.selected_evidence_unit_ids
        demoRlmOut.2.root_cause.selected_evidence_unit_ids ∧
      List.Disjoint demoRlmOut.2.symptoms.selected_evidence_unit_ids
        (demoRlmOut.1.resolution_steps.flatMap (·.evidence_unit_ids)) ∧
      List.Disjoint demoRlmOut.2.symptoms.selected_evidence_unit_ids
        (demoRlmOut.1.placeholders_needed.flatMap (·.evidence_unit_ids))) ∧
    (List.Disjoint demoRlmOut.2.root_cause.selected_evidence_unit_ids
        (demoRlmOut.1.resolution_steps.flatMap (·.evidence_unit_ids)) ∧
      List.Disjoint demoRlmOut.2.root_cause.selected_evidence_unit_ids
        (demoRlmOut.1.placeholders_needed.flatMap (·.evidence_unit_ids))) ∧
    List.Disjoint (demoRlmOut.1.resolution_steps.flatMap (·.evidence_unit_ids))
      (demoRlmOut.1.placeholders_needed.flatMap (·.evidence_unit_ids)) ∧
    (∀ x ∈ demoRlmOut.1.verification_steps.flatMap (·.evidence_unit_ids),
      x ∈ demoRlmOut.1.resolution_steps.flatMap (·.evidence_unit_ids)) :=
  rlm_no_cross_section_reuse demoStore [demoTicket] [] [] [] none "CS-1"
    demoRlmOut (by decide)

theorem evidenceByField_sub {units : List EvidenceUnit} {f : String}
    {eu : EvidenceUnit} (h : eu ∈ evidenceByField units f) : eu ∈ units := by
  unfold evidenceByField at h
  exact List.mem_of_mem_filter (mem_sortByLe.mp h)

theorem genPhTokenLoop_inv {sEU pEU : List EvidenceUnit}
    {placeholders : List PlaceholderRow}
    (tokens : List String) (found : List (String × PlaceholderNeed))
    (hfound : ∀ pr ∈ found, ∀ x ∈ pr.2.evidence_unit_ids,
      x ∈ (sEU ++ pEU).map (·.evidence_unit_id)) :
    ∀ pr ∈ genPhTokenLoop sEU pEU placeholders found tokens,
      ∀ x ∈ pr.2.evidence_unit_ids,
        x ∈ (sEU ++ pEU).map (·.evidence_unit_id) := by
  induction tokens generalizing found with
  | nil => exact hfound
  | cons t rest ih =>
    rw [genPhTokenLoop]
    apply ih
    intro pr hpr x hx
    rcases assocSet_mem hpr with h1 | h2
    · rw [h1] at hx
      simp only at hx
      rcases List.mem_append.mp hx with hs | hp
      · obtain ⟨eu, heu, rfl⟩ := List.mem_map.mp hs
        exact List.mem_map.mpr ⟨eu,
          List.mem_append.mpr (Or.inl (List.mem_of_mem_filter heu)), rfl⟩
      · rcases hl : lastBySourceId pEU t with _ | eu <;> rw [hl] at hp
        · simp at hp
        · have hx' := List.mem_singleton.mp hp
          subst hx'
          exact List.mem_map.mpr ⟨eu,
            List.mem_append.mpr (Or.inr (lastBySourceId_mem hl)), rfl⟩
    · exact hfound pr h2 x hx

theorem genPhScriptLoop_inv {sEU pEU : List EvidenceUnit}
    {placeholders : List PlaceholderRow}
    (scripts : List ScriptRow) (found : List (String × PlaceholderNeed))
    (hfound : ∀ pr ∈ found, ∀ x ∈ pr.2.evidence_unit_ids,
      x ∈ (sEU ++ pEU).map (·.evidence_unit_id)) :
    ∀ pr ∈ genPhScriptLoop sEU pEU placeholders found scripts,
      ∀ x ∈ pr.2.evidence_unit_ids,
        x ∈ (sEU ++ pEU).map (·.evidence_unit_id) := by
  induction scripts generalizing found with
  | nil => exact hfound
  | cons s rest ih =>
    rw [genPhScriptLoop]
    exact ih _ (genPhTokenLoop_inv _ found hfound)

theorem genPlaceholders_ids_sub {scripts : List ScriptRow}
    {placeholders : List PlaceholderRow} {units : List EvidenceUnit}
    {x : String}
    (h : x ∈ (genPlaceholdersNeeded scripts placeholders units).flatMap
      (·.evidence_unit_ids)) :
    x ∈ units.map (·.evidence_unit_id) := by
  unfold genPlaceholdersNeeded at h
  rw [List.mem_flatMap] at h
  obtain ⟨need, hneed, hx⟩ := h
  obtain ⟨pr, hpr, hpr2⟩ := List.mem_map.mp hneed
  have := genPhScriptLoop_inv scripts [] (by intro pr h; simp at h) pr hpr x
    (hpr2 ▸ hx)
  obtain ⟨eu, heu, rfl⟩ := List.mem_map.mp this
  rcases List.mem_append.mp heu with h1 | h2
  · exact List.mem_map.mpr ⟨eu, List.mem_of_mem_filter h1, rfl⟩
  · exact List.mem_map.mpr ⟨eu, List.mem_of_mem_filter h2, rfl⟩

theorem detCaseJson_step_ids_sub {bundle : Bundle} {x : String}
    (h : x ∈ (buildCaseJsonDeterministic bundle).resolution_steps.flatMap
        (·.evidence_unit_ids) ∨
      x ∈ (buildCaseJsonDeterministic bundle).verification_steps.flatMap
        (·.evidence_unit_ids) ∨
      x ∈ (buildCaseJsonDeterministic bundle).placeholders_needed.flatMap
        (·.evidence_unit_ids)) :
    x ∈ bundle.evidence_units.map (·.evidence_unit_id) := by
  have hres : ∀ y, y ∈ (buildCaseJsonDeterministic bundle).resolution_steps.flatMap
      (·.evidence_unit_ids) → y ∈ bundle.evidence_units.map (·.evidence_unit_id) := by
    intro y hy
    have : y ∈ (stepsFromEvidence
        (evidenceByField bundle.evidence_units "Resolution")).flatMap
        (·.evidence_unit_ids) := hy
    obtain ⟨eu, heu, rfl⟩ := List.mem_map.mp (stepsFromEvidence_ids_sub this)
    exact List.mem_map.mpr ⟨eu, evidenceByField_sub heu, rfl⟩
  rcases h with h | h | h
  · exact hres x h
  · have : x ∈ (filterVerificationSteps (stepsFromEvidence
        (evidenceByField bundle.evidence_units "Resolution"))).flatMap
        (·.evidence_unit_ids) := h
    exact hres x (filterVerification_ids_sub this)
  · have : x ∈ (genPlaceholdersNeeded bundle.scripts bundle.placeholders
        bundle.evidence_units).flatMap (·.evidence_unit_ids) := h
    exact genPlaceholders_ids_sub this

theorem bundle_units_sub {db : Db} {tid : String} {bundle : Bundle}
    (h : buildCaseBundle db tid = .ok bundle) {eu : EvidenceUnit}
    (heu : eu ∈ bundle.evidence_units) : eu ∈ db.evidence_units := by
  unfold buildCaseBundle at h
  rcases ht : db.raw_tickets.filter (fun t => t.ticket_number = tid) with
    _ | ⟨ticket, rest⟩ <;> rw [ht] at h
  · exact absurd h (by simp)
  · injection h with h'
    rw [← h'] at heu
    simp only at heu
    rcases List.mem_append.mp heu with h1 | h2
    · exact List.mem_of_mem_filter h1
    · exact List.mem_of_mem_filter h2

theorem evidenceIdsSubset_spec {cj : CaseJSON} {known : List String}
    (h : evidenceIdsSubset cj known = true) {x : String}
    (hx : x ∈ cj.resolution_steps.flatMap (·.evidence_unit_ids) ∨
      x ∈ cj.verification_steps.flatMap (·.evidence_unit_ids) ∨
      x ∈ cj.placeholders_needed.flatMap (·.evidence_unit_ids)) :
    x ∈ known := by
  unfold evidenceIdsSubset at h
  rw [Bool.and_eq_true] at h
  obtain ⟨hsteps, hph⟩ := h
  rw [List.all_eq_true] at hsteps hph
  rcases hx with hx | hx | hx
  · rw [List.mem_flatMap] at hx
    obtain ⟨st, hst, hxin⟩ := hx
    have := hsteps st (List.mem_append.mpr (Or.inl hst))
    rw [List.all_eq_true] at this
    exact decide_eq_true_iff.mp (this x hxin)
  · rw [List.mem_flatMap] at hx
    obtain ⟨st, hst, hxin⟩ := hx
    have := hsteps st (List.mem_append.mpr (Or.inr hst))
    rw [List.all_eq_true] at this
    exact decide_eq_true_iff.mp (this x hxin)
  · rw [List.mem_flatMap] at hx
    obtain ⟨p, hp, hxin⟩ := hx
    have := hph p hp
    rw [List.all_eq_true] at this
    exact decide_eq_true_iff.mp (this x hxin)

set_option maxHeartbeats 2000000 in
/-- C1 (amended): every id cited in any section of a `build_case_json_rlm`
document is in the evidence store; for documents of the
`build_case_json_llm` path, the guarantee holds for the ids cited by
resolution steps, verification steps and placeholder needs (the lists
`_evidence_ids_subset` checks) — the `evidence_sources` index of a
collaborator-returned document is not validated. -/
theorem cited_ids_in_store_amended :
    (∀ (store : List EvidenceUnit) (rawTickets : List TicketRow)
      (rawConversations : List ConversationRow) (rawScripts : List ScriptRow)
      (rawPlaceholders : List PlaceholderRow) (collab : Option RlmCollab)
      (ticketId : String) (out : CaseJSON × RlmTrace),
      buildCaseJsonRlm store rawTickets rawConversations rawScripts
        rawPlaceholders collab ticketId = .ok out →
      ∀ x, (x ∈ out.2.problem.selected_evidence_unit_ids ∨
            x ∈ out.2.symptoms.selected_evidence_unit_ids ∨
            x ∈ out.2.root_cause.selected_evidence_unit_ids ∨
            x ∈ out.1.resolution_steps.flatMap (·.evidence_unit_ids) ∨
            x ∈ out.1.verification_steps.flatMap (·.evidence_unit_ids) ∨
            x ∈ out.1.placeholders_needed.flatMap (·.evidence_unit_ids)) →
        x ∈ storeIds store) ∧
    (∀ (db : Db) (ticketId : String) (bundle : Bundle) (apiKey : Bool)
      (collab : LlmCollab),
      buildCaseBundle db ticketId = .ok bundle →
      ∀ x, (x ∈ (buildCaseJsonLlm bundle apiKey collab).resolution_steps.flatMap
              (·.evidence_unit_ids) ∨
            x ∈ (buildCaseJsonLlm bundle apiKey collab).verification_steps.flatMap
              (·.evidence_unit_ids) ∨
            x ∈ (buildCaseJsonLlm bundle apiKey collab).placeholders_needed.flatMap
              (·.evidence_unit_ids)) →
        x ∈ storeIds db.evidence_units) := by
  constructor
  · intro store rawTickets rawConversations rawScripts rawPlaceholders collab
      ticketId out h x hx
    unfold buildCaseJsonRlm at h
    rcases hl : loadTicketContext rawTickets rawConversations rawScripts
        rawPlaceholders ticketId with e | ⟨ticket, conversations, scripts,
        placeholders⟩ <;> rw [hl] at h
    · exact absurd h (by simp)
    · have hout : out = rlmAssemble store ticket conversations scripts
          placeholders collab ticketId := by
        injection h with h'
        exact h'.symm
      subst hout
      obtain ⟨_, _, _, hver, hstore⟩ := rlmChain_spec store collab
        (collectSourceIds ticketId conversations scripts)
        (extractKeywords (pyStrip ticket.subject) (pyStrip ticket.module)
          (pyStrip ticket.category))
        scripts placeholders _ _ _ _ _ rfl rfl rfl rfl rfl
      rcases hx with hx | hx | hx | hx | hx | hx
      · exact hstore x (Or.inl hx)
      · exact hstore x (Or.inr (Or.inl hx))
      · exact hstore x (Or.inr (Or.inr (Or.inl hx)))
      · exact hstore x (Or.inr (Or.inr (Or.inr (Or.inl hx))))
      · exact hstore x (Or.inr (Or.inr (Or.inr (Or.inl (hver x hx)))))
      · exact hstore x (Or.inr (Or.inr (Or.inr (Or.inr hx))))
  · intro db ticketId bundle apiKey collab hb x hx
    have hknown : ∀ y, y ∈ bundle.evidence_units.map (·.evidence_unit_id) →
        y ∈ storeIds db.evidence_units := by
      intro y hy
      obtain ⟨eu, heu, rfl⟩ := List.mem_map.mp hy
      exact List.mem_map.mpr ⟨eu, bundle_units_sub hb heu, rfl⟩
    unfold buildCaseJsonLlm at hx
    by_cases hkey : apiKey
    · simp only [hkey, Bool.not_true, Bool.false_eq_true, if_false] at hx
      rcases hc : collab bundle with _ | cj <;> rw [hc] at hx
      · exact hknown x (detCaseJson_step_ids_sub hx)
      · by_cases hsub : evidenceIdsSubset cj
          (bundle.evidence_units.map (·.evidence_unit_id))
        · simp only [hsub, Bool.not_true, Bool.false_eq_true, if_false] at hx
          by_cases hes : cj.evidence_sources.isEmpty
          · simp only [hes, if_true] at hx
            exact hknown x (evidenceIdsSubset_spec hsub hx)
          · simp only [hes, Bool.false_eq_true, if_false] at hx
            exact hknown x (evidenceIdsSubset_spec hsub hx)
        · rw [Bool.not_eq_true] at hsub
          simp only [hsub, Bool.not_false, if_true] at hx
          exact hknown x (detCaseJson_step_ids_sub hx)
    · rw [Bool.not_eq_true] at hkey
      simp only [hkey, Bool.not_false, if_true] at hx
      exact hknown x (detCaseJson_step_ids_sub hx)

/-- C1 witness: both parts applied to the demo fixture. -/
theorem cited_ids_in_store_amended_witness :
    "EU-D0" ∈ storeIds demoStore ∧ "EU-R0" ∈ storeIds demoDb.evidence_units :=
  ⟨cited_ids_in_store_amended.1 demoStore [demoTicket] [] [] [] none "CS-1"
      demoRlmOut (by decide) "EU-D0" (Or.inl (by decide)),
    cited_ids_in_store_amended.2 demoDb "CS-1" c1Bundle true c1Collab
      (by decide) "EU-R0" (Or.inl (by decide))⟩

/-- C1 counterexample: on the LLM path a collaborator-proposed id that is
in no evidence store passes `_evidence_ids_subset` inside
`build_case_json_llm` and is cited by the returned document's problem
section (as the verifier's own `_collect_section_ids` reads it). -/
theorem cited_ids_in_store_counterexample :
    buildCaseBundle demoDb "CS-1" = .ok c1Bundle ∧
    buildCaseJsonLlm c1Bundle true c1Collab = c1BadDoc ∧
    collectSectionIds (buildCaseJsonLlm c1Bundle true c1Collab) "problem" =
      ["BOGUS-1"] ∧
    "BOGUS-1" ∉ storeIds demoDb.evidence_units :=
  ⟨by decide, by decide, by decide, by decide⟩

/-- C8 counterexample: a surviving candidate evidence unit with a
whitespace-only snippet yields *no* step at all, refuting the claimed
one-to-one correspondence (and its text, were it kept, would have been the
trimmed snippet, not the snippet itself). -/
theorem steps_one_to_one_counterexample :
    stepsFromEvidence [c8BlankUnit] = [] ∧
    pyStrip c8BlankUnit.snippet_text = "" ∧
    stepsFromEvidence [{ c8BlankUnit with snippet_text := " x " }] =
      [{ text := "x", evidence_unit_ids := ["EU-BLANK"] }] := by
  refine ⟨by decide, by decide, by decide⟩

/-- C8 (amended): `_steps_from_evidence` keeps exactly the candidates whose
snippet is non-blank after trimming, each becoming one step whose text is
the trimmed snippet and whose citation list is exactly that unit's id;
`_filter_verification_steps` is exactly the filter by the
verify/confirm/validate word-boundary test, hence a sublist of the
resolution steps. -/
theorem steps_one_to_one_amended (units : List EvidenceUnit)
    (steps : List Step) :
    stepsFromEvidence units =
      (units.filter (fun u => !(pyStrip u.snippet_text == ""))).map
        (fun u => { text := pyStrip u.snippet_text,
                    evidence_unit_ids := [u.evidence_unit_id] }) ∧
    filterVerificationSteps steps =
      steps.filter (fun st => isVerificationText st.text) ∧
    (filterVerificationSteps steps).Sublist steps ∧
    isVerificationText "VERIFY the fix" = true ∧
    isVerificationText "confirm with the user" = true ∧
    isVerificationText "Validate connectivity" = true ∧
    isVerificationText "verifying the fix" = false ∧
    isVerificationText "confirmed by the user" = false ∧
    isVerificationText "then verify" = false := by
  refine ⟨?_, filterVerification_eq_filter steps,
    filterVerification_sublist steps, by decide, by decide, by decide,
    by decide, by decide, by decide⟩
  induction units with
  | nil => rfl
  | cons u rest ih =>
    rw [stepsFromEvidence, List.filter_cons]
    by_cases h : pyStrip u.snippet_text = ""
    · simp [h, ih]
    · simp [h, ih]

theorem getDraft_ok_filter {drafts : List KBDraft} {draftId : String}
    {d : KBDraft} (h : getDraft drafts draftId = .ok d) :
    drafts.filter (fun x => x.draft_id = draftId) = [d] := by
  unfold getDraft at h
  rcases hf : drafts.filter (fun x => x.draft_id = draftId) with _ | ⟨a, rest⟩
  · rw [hf] at h
    exact absurd h (by simp)
  · rcases rest with _ | ⟨b, rest2⟩ <;> rw [hf] at h
    · injection h with h'
      exact h' ▸ hf
    · exact absurd h (by simp)

theorem getDraft_ok_mem {drafts : List KBDraft} {draftId : String}
    {d : KBDraft} (h : getDraft drafts draftId = .ok d) :
    d ∈ drafts ∧ d.draft_id = draftId := by
  have hf := getDraft_ok_filter h
  have hd : d ∈ drafts.filter (fun x => x.draft_id = draftId) := by
    rw [hf]
    exact List.mem_singleton.mpr rfl
  have hm := List.mem_filter.mp hd
  exact ⟨hm.1, of_decide_eq_true hm.2⟩

theorem filter_map_draft {l : List KBDraft} {draftId : String}
    {f : KBDraft → KBDraft} (hf : ∀ x, (f x).draft_id = x.draft_id) :
    (l.map f).filter (fun x => x.draft_id = draftId) =
      (l.filter (fun x => x.draft_id = draftId)).map f := by
  induction l with
  | nil => rfl
  | cons a rest ih =>
    rw [List.map_cons, List.filter_cons, List.filter_cons]
    by_cases h : a.draft_id = draftId
    · simp [hf a, h, ih]
    · simp [hf a, h, ih]

theorem getDraft_map {l : List KBDraft} {draftId : String} {d : KBDraft}
    {f : KBDraft → KBDraft} (h : getDraft l draftId = .ok d)
    (hf : ∀ x, (f x).draft_id = x.draft_id) :
    getDraft (l.map f) draftId = .ok (f d) := by
  unfold getDraft
  rw [filter_map_draft hf, getDraft_ok_filter h, List.map_singleton]

theorem validateTransition_iff (c t : String) :
    validateTransition c t = .ok () ↔
      (c, t) ∈ [("draft", "approved"), ("draft", "rejected"),
        ("draft", "superseded"), ("approved", "published"),
        ("approved", "rejected"), ("approved", "superseded")] := by
  unfold validateTransition
  constructor
  · intro h
    split at h
    case isTrue ht =>
      unfold ALLOWED_TRANSITIONS at ht
      split_ifs at ht with h1 h2 h3 h4 h5
      · subst h1
        simp only [List.mem_cons, List.not_mem_nil, or_false] at ht
        rcases ht with rfl | rfl | rfl <;> simp
      · subst h2
        simp only [List.mem_cons, List.not_mem_nil, or_false] at ht
        rcases ht with rfl | rfl | rfl <;> simp
      · simp at ht
      · simp at ht
      · simp at ht
      · simp at ht
    case isFalse => exact absurd h (by simp)
  · intro h
    simp only [List.mem_cons, List.not_mem_nil, or_false, Prod.mk.injEq] at h
    rcases h with ⟨rfl, rfl⟩ | ⟨rfl, rfl⟩ | ⟨rfl, rfl⟩ | ⟨rfl, rfl⟩ |
      ⟨rfl, rfl⟩ | ⟨rfl, rfl⟩ <;> decide

theorem supersede_find_none (drafts : List KBDraft) (t k : String) :
    (supersedeTargets drafts t k ["draft", "approved"]).find?
      (fun d => !(decide ("superseded" ∈ ALLOWED_TRANSITIONS d.status))) =
      none := by
  rw [List.find?_eq_none]
  intro d hd
  have hp := (List.mem_filter.mp hd).2
  simp only [Bool.and_eq_true, decide_eq_true_iff, List.mem_cons,
    List.not_mem_nil, or_false, List.mem_singleton] at hp
  rcases hp.2 with h | h <;> simp [ALLOWED_TRANSITIONS, h]

theorem approve_invalid {db : Db} {draftId reviewer : String}
    {notes : Option String} {now : Nat} {d : KBDraft}
    (hd : getDraft db.kb_drafts draftId = .ok d)
    (hna : "approved" ∉ ALLOWED_TRANSITIONS d.status) :
    approveDraft db draftId reviewer notes now =
      .error (invalidTransitionMsg d.status "approved") := by
  have hv : validateTransition d.status "approved" =
      .error (invalidTransitionMsg d.status "approved") := by
    unfold validateTransition
    rw [if_neg hna]
  unfold approveDraft
  rw [hd]
  simp only [bind, Except.bind]
  rw [hv]

theorem reject_invalid {db : Db} {draftId reviewer : String}
    {notes : Option String} {now : Nat} {d : KBDraft}
    (hd : getDraft db.kb_drafts draftId = .ok d)
    (hna : "rejected" ∉ ALLOWED_TRANSITIONS d.status) :
    rejectDraft db draftId reviewer notes now =
      .error (invalidTransitionMsg d.status "rejected") := by
  have hv : validateTransition d.status "rejected" =
      .error (invalidTransitionMsg d.status "rejected") := by
    unfold validateTransition
    rw [if_neg hna]
  unfold rejectDraft
  rw [hd]
  simp only [bind, Except.bind]
  rw [hv]

theorem approve_draft_status_ok {db : Db} {draftId reviewer : String}
    {notes : Option String} {now : Nat} {d : KBDraft}
    (hd : getDraft db.kb_drafts draftId = .ok d)
    (hstatus : d.status = "draft") :
    ∃ db', approveDraft db draftId reviewer notes now = .ok db' ∧
      { d with
        status := "approved", reviewer := some reviewer,
        reviewed_at := some now, review_notes := notes } ∈ db'.kb_drafts := by
  have hmem := getDraft_ok_mem hd
  unfold approveDraft
  rw [hd]
  simp only [bind, Except.bind]
  rw [hstatus]
  rw [show validateTransition "draft" "approved" = .ok () from by decide]
  unfold supersedeOtherDrafts
  dsimp only
  rw [supersede_find_none]
  dsimp only [pure, Except.pure]
  refine ⟨_, rfl, ?_⟩
  have h1 : ({ d with
      status := "approved", reviewer := some reviewer,
      reviewed_at := some now, review_notes := notes } : KBDraft) ∈
      db.kb_drafts.map (fun x =>
        if x.draft_id = draftId then
          { d with
            status := "approved", reviewer := some reviewer,
            reviewed_at := some now, review_notes := notes }
        else x) := by
    refine List.mem_map.mpr ⟨d, hmem.1, ?_⟩
    rw [if_pos hmem.2]
  refine List.mem_map.mpr ⟨_, h1, ?_⟩
  unfold supersedeUpdate
  simp

theorem publish_already {db : Db} {draftId reviewer : String}
    {note : Option String} {artId : Option String} {now : Nat} {d : KBDraft}
    (hd : getDraft db.kb_drafts draftId = .ok d)
    (h : d.status = "published" ∨ d.published_at ≠ none) :
    publishDraft db draftId reviewer note artId now =
      .error ("Draft " ++ draftId ++ " has already been published") := by
  unfold publishDraft
  rw [hd]
  simp only [bind, Except.bind]
  rw [if_pos h]
  rfl

theorem publish_not_approved {db : Db} {draftId reviewer : String}
    {note : Option String} {artId : Option String} {now : Nat} {d : KBDraft}
    (hd : getDraft db.kb_drafts draftId = .ok d)
    (h1 : d.status ≠ "published") (h2 : d.published_at = none)
    (h3 : d.status ≠ "approved") :
    publishDraft db draftId reviewer note artId now =
      .error ("Draft " ++ draftId ++ " must be approved before publishing") := by
  unfold publishDraft
  rw [hd]
  simp only [bind, Except.bind]
  rw [if_neg (by simp [h1, h2]), if_pos h3]
  rfl

theorem publish_ok_none {db : Db} {draftId reviewer : String}
    {note : Option String} {now : Nat} {d : KBDraft}
    (hd : getDraft db.kb_drafts draftId = .ok d)
    (h1 : d.status = "approved") (h2 : d.published_at = none) :
    ∃ db' article,
      publishDraft db draftId reviewer note none now = .ok (db', article) ∧
      db'.versions = db.versions ++
        [{ version_id := freshUuid (db.next_uuid + 1),
           kb_article_id := freshUuid db.next_uuid, version := 1,
           source_draft_id := some d.draft_id,
           body_markdown := d.body_markdown, title := d.title,
           reviewer := some reviewer, change_note := note,
           is_rollback := false, created_at := now }] ∧
      db'.kb_drafts = db.kb_drafts.map (fun x =>
        if x.draft_id = draftId then
          { x with status := "published", published_at := some now }
        else x) := by
  unfold publishDraft
  rw [hd]
  simp only [bind, Except.bind]
  rw [if_neg (by simp [h1, h2]), if_neg (by simp [h1])]
  exact ⟨_, _, rfl, rfl, rfl⟩

/-- C3 (amended): `_validate_transition` accepts exactly the table's six
transitions, and approve/reject fail with the error naming the current and
requested state on any other request, leaving the store unchanged (errors
commit nothing in this embedding); approve on a `rejected` draft fails;
approve on a `draft`-status draft succeeds and stamps reviewer and
`reviewed_at`.  `publish_draft` enforces its leg of the table through its
own guards, whose messages name the draft and the required state
(`approved` / already published) but not the current state — the
correction this claim needs. -/
theorem governance_transitions_amended (db : Db)
    (draftId reviewer : String) (notes : Option String)
    (note : Option String) (artId : Option String) (now : Nat) :
    (∀ c t, validateTransition c t = .ok () ↔
      (c, t) ∈ [("draft", "approved"), ("draft", "rejected"),
        ("draft", "superseded"), ("approved", "published"),
        ("approved", "rejected"), ("approved", "superseded")]) ∧
    (∀ d, getDraft db.kb_drafts draftId = .ok d →
      ("approved" ∉ ALLOWED_TRANSITIONS d.status →
        approveDraft db draftId reviewer notes now =
          .error (invalidTransitionMsg d.status "approved")) ∧
      ("rejected" ∉ ALLOWED_TRANSITIONS d.status →
        rejectDraft db draftId reviewer notes now =
          .error (invalidTransitionMsg d.status "rejected")) ∧
      (d.status = "rejected" →
        approveDraft db draftId reviewer notes now =
          .error (invalidTransitionMsg "rejected" "approved")) ∧
      (d.status = "draft" →
        ∃ db', approveDraft db draftId reviewer notes now = .ok db' ∧
          { d with
            status := "approved", reviewer := some reviewer,
            reviewed_at := some now, review_notes := notes } ∈
            db'.kb_drafts) ∧
      (d.status ≠ "published" → d.published_at = none →
        d.status ≠ "approved" →
        publishDraft db draftId reviewer note artId now =
          .error ("Draft " ++ draftId ++
            " must be approved before publishing")) ∧
      ((d.status = "published" ∨ d.published_at ≠ none) →
        publishDraft db draftId reviewer note artId now =
          .error ("Draft " ++ draftId ++ " has already been published"))) := by
  refine ⟨validateTransition_iff, fun d hd => ⟨?_, ?_, ?_, ?_, ?_, ?_⟩⟩
  · exact fun hna => approve_invalid hd hna
  · exact fun hna => reject_invalid hd hna
  · intro hstatus
    have := @approve_invalid _ _ reviewer notes now _ hd
      (by rw [hstatus]; decide)
    rw [hstatus] at this
    exact this
  · exact fun hstatus => approve_draft_status_ok hd hstatus
  · exact fun h1 h2 h3 => publish_not_approved hd h1 h2 h3
  · exact fun h => publish_already hd h

/-- C3 counterexample: requesting `published` from a `rejected` draft is
outside the table, but `publish_draft`'s error does not name the current
state (`rejected` appears nowhere in the message), unlike the
`_validate_transition` errors the claim describes. -/
theorem governance_transitions_counterexample :
    getDraft c3Db.kb_drafts "D-REJ" = .ok c3RejectedDraft ∧
    c3RejectedDraft.status = "rejected" ∧
    publishDraft c3Db "D-REJ" "alice" none none 7 =
      .error "Draft D-REJ must be approved before publishing" ∧
    strContains "Draft D-REJ must be approved before publishing"
      "rejected" = false ∧
    strContains (invalidTransitionMsg "rejected" "approved") "rejected" =
      true :=
  ⟨by decide, by decide, by decide, by decide, by decide⟩

/-- C3 witness: approve on the rejected fixture fails, approve on the
draft-status fixture succeeds with stamps. -/
theorem governance_transitions_amended_witness :
    approveDraft c3Db "D-REJ" "alice" none 7 =
      .error (invalidTransitionMsg "rejected" "approved") ∧
    (∃ db', approveDraft c3Db "D-ACT" "alice" none 7 = .ok db' ∧
      { c3ActiveDraft with
        status := "approved", reviewer := some "alice",
        reviewed_at := some 7, review_notes := none } ∈ db'.kb_drafts) :=
  ⟨((governance_transitions_amended c3Db "D-REJ" "alice" none none none
      7).2 c3RejectedDraft (by decide)).2.2.1 (by decide),
    ((governance_transitions_amended c3Db "D-ACT" "alice" none none none
      7).2 c3ActiveDraft (by decide)).2.2.2.1 (by decide)⟩

/-- C5: `publish_draft` fails when the draft is not approved, fails when it
was already published (status `published` or a stamped `published_at` —
either trips the guard), and a success appends exactly one Article Version
row; publishing the same draft twice yields one version row from the first
call and the already-published error from the second.  A failing call
commits nothing, so no article/version/event row is added (errors return no
store in this embedding). -/
theorem publish_twice_guard (db : Db) (draftId reviewer : String)
    (note : Option String) (artId : Option String) (now now2 : Nat) :
    (∀ d, getDraft db.kb_drafts draftId = .ok d →
      ((d.status = "published" ∨ d.published_at ≠ none) →
        publishDraft db draftId reviewer note artId now =
          .error ("Draft " ++ draftId ++ " has already been published")) ∧
      (d.status ≠ "published" → d.published_at = none →
        d.status ≠ "approved" →
        publishDraft db draftId reviewer note artId now =
          .error ("Draft " ++ draftId ++
            " must be approved before publishing"))) ∧
    (∀ d, getDraft db.kb_drafts draftId = .ok d → d.status = "approved" →
      d.published_at = none →
      ∃ db' article v,
        publishDraft db draftId reviewer note none now = .ok (db', article) ∧
        db'.versions = db.versions ++ [v] ∧
        publishDraft db' draftId reviewer note none now2 =
          .error ("Draft " ++ draftId ++ " has already been published")) := by
  refine ⟨fun d hd => ⟨fun h => publish_already hd h,
    fun h1 h2 h3 => publish_not_approved hd h1 h2 h3⟩, ?_⟩
  intro d hd h1 h2
  obtain ⟨db', article, hok, hvers, hdrafts⟩ := publish_ok_none hd h1 h2
  refine ⟨db', article, _, hok, hvers, ?_⟩
  have hid : ∀ x : KBDraft,
      ((fun x => if x.draft_id = draftId then
        { x with status := "published", published_at := some now }
      else x) x).draft_id = x.draft_id := by
    intro x
    by_cases h : x.draft_id = draftId <;> simp [h]
  have hget : getDraft db'.kb_drafts draftId = .ok
      (if d.draft_id = draftId then
        { d with status := "published", published_at := some now }
      else d) := by
    rw [hdrafts]
    exact getDraft_map hd hid
  rw [if_pos (getDraft_ok_mem hd).2] at hget
  exact publish_already hget (Or.inl rfl)

/-- C5 witness: the approved fixture publishes once (one version row) and
the second call fails with the already-published error. -/
theorem publish_twice_guard_witness :
    ∃ db' article v,
      publishDraft c5Db "D-APP" "alice" none none 8 = .ok (db', article) ∧
      db'.versions = c5Db.versions ++ [v] ∧
      publishDraft db' "D-APP" "alice" none none 9 =
        .error ("Draft " ++ "D-APP" ++ " has already been published") :=
  (publish_twice_guard c5Db "D-APP" "alice" none none 8 9).2 c5Draft
    (by decide) (by decide) (by decide)

/-- C6: with an article at current version 2 whose version-1 row exists,
`rollback_version` to version 1 appends exactly one new version row
(`version 3`, `is_rollback = true`, no source draft), makes the article's
current version 3 and its current body/title equal to version 1's, and
leaves the prior version rows untouched (the version table only grows by
the appended row); a rollback to a version that does not exist for the
article fails with the version-not-found error. -/
theorem rollback_roundtrip (db : Db) (aid reviewer note : String)
    (now : Nat) :
    (∀ article arest v1 vrest,
      db.articles.filter (fun a => a.kb_article_id = aid) =
        article :: arest →
      article.current_version = 2 →
      db.versions.filter (fun v => v.kb_article_id = aid && v.version = 1) =
        v1 :: vrest →
      ∃ db' updated,
        rollbackVersion db aid 1 reviewer note now = .ok (db', updated) ∧
        updated.current_version = 3 ∧
        updated.body_markdown = v1.body_markdown ∧
        updated.title = v1.title ∧
        db'.versions = db.versions ++
          [{ version_id := freshUuid db.next_uuid, kb_article_id := aid,
             version := 3, source_draft_id := none,
             body_markdown := v1.body_markdown, title := v1.title,
             reviewer := some reviewer, change_note := some note,
             is_rollback := true, created_at := now }]) ∧
    (∀ article arest targetVersion,
      db.articles.filter (fun a => a.kb_article_id = aid) =
        article :: arest →
      db.versions.filter (fun v =>
        v.kb_article_id = aid && v.version = targetVersion) = [] →
      rollbackVersion db aid targetVersion reviewer note now =
        .error ("Version " ++ toString targetVersion ++
          " not found for article " ++ aid)) := by
  constructor
  · intro article arest v1 vrest hart hcv htarget
    refine ⟨?w1, ?w2, ?hok, ?hv3, ?hbody, ?htitle, ?hvers⟩
    case hok =>
      unfold rollbackVersion
      rw [hart]
      simp only [bind, Except.bind, pure, Except.pure]
      rw [htarget]
      exact rfl
    case hv3 => simp [hcv]
    case hbody => rfl
    case htitle => rfl
    case hvers => simp [hcv]
  · intro article arest targetVersion hart htarget
    unfold rollbackVersion
    rw [hart]
    simp only [bind, Except.bind, pure, Except.pure]
    rw [htarget]

/-- C6 witness: the concrete round-trip (A at v1, B at v2, roll back to 1)
and the missing-version failure at version 5. -/
theorem rollback_roundtrip_witness :
    (∃ db' updated,
      rollbackVersion c6Db "ART-1" 1 "alice" "undo" 9 = .ok (db', updated) ∧
      updated.current_version = 3 ∧
      updated.body_markdown = c6V1.body_markdown ∧
      updated.title = c6V1.title ∧
      db'.versions = c6Db.versions ++
        [{ version_id := freshUuid c6Db.next_uuid, kb_article_id := "ART-1",
           version := 3, source_draft_id := none,
           body_markdown := c6V1.body_markdown, title := c6V1.title,
           reviewer := some "alice", change_note := some "undo",
           is_rollback := true, created_at := 9 }]) ∧
    rollbackVersion c6Db "ART-1" 5 "alice" "undo" 9 =
      .error ("Version " ++ toString 5 ++ " not found for article " ++
        "ART-1") :=
  ⟨(rollback_roundtrip c6Db "ART-1" "alice" "undo" 9).1 c6Article [] c6V1 []
      (by decide) (by decide) (by decide),
    (rollback_roundtrip c6Db "ART-1" "alice" "undo" 9).2 c6Article [] 5
      (by decide) (by decide)⟩

theorem insertEdges_ok {s : List KBLineageEdge} {l : List KBLineageEdge}
    {s' : List KBLineageEdge} (h : insertEdges s l = .ok s') :
    s' = s ++ l := by
  induction l generalizing s with
  | nil =>
    injection h with h'
    simp [← h']
  | cons e rest ih =>
    rw [insertEdges] at h
    split at h
    · exact absurd h (by simp)
    · rw [ih h]
      simp

/-- C7: re-deriving lineage for the same draft and case document without
clearing prior edges cannot create a duplicate
`(draft_id, evidence_unit_id, section_label)` row: the deterministic
`edge_id` is the table's primary key, so the second call leaves the edge
table exactly as the first call left it (it fails with the SQLite UNIQUE
error whenever the first call inserted anything). -/
theorem lineage_rederive_no_duplicates (store : List EvidenceUnit)
    (draftId : String) (cj : CaseJSON) (edges0 es edges1 : List KBLineageEdge)
    (h : writeLineageEdges store draftId cj edges0 = .ok (es, edges1)) :
    edges1 = edges0 ++ es ∧
    lineageStoreAfter (writeLineageEdges store draftId cj edges1) edges1 =
      edges1 ∧
    (es ≠ [] → writeLineageEdges store draftId cj edges1 =
      .error "UNIQUE constraint failed: kb_lineage_edges.edge_id") := by
  unfold writeLineageEdges at h ⊢
  dsimp only at h ⊢
  by_cases hflat : (collectEvidenceBySection cj).flatMap (·.2) = []
  · rw [if_pos hflat] at h
    injection h with h'
    injection h' with h1 h2
    subst h1
    subst h2
    rw [if_pos hflat]
    exact ⟨by simp, rfl, by simp⟩
  · rw [if_neg hflat] at h
    rcases hins : insertEdges edges0 ((collectEvidenceBySection cj).flatMap
        (fun p => edgesForSection store draftId p.1 p.2)) with e | table' <;>
      rw [hins] at h
    · exact absurd h (by simp)
    · injection h with h'
      injection h' with h1 h2
      subst h1
      subst h2
      have htab := insertEdges_ok hins
      subst htab
      rw [if_neg hflat]
      rcases hne : (collectEvidenceBySection cj).flatMap
          (fun p => edgesForSection store draftId p.1 p.2) with _ | ⟨e, rest⟩
      · exact ⟨rfl, rfl, by simp⟩
      · have hmem : e.edge_id ∈ (edges0 ++ e :: rest).map (·.edge_id) := by
          simp
        have hx : insertEdges (edges0 ++ e :: rest) (e :: rest) =
            .error "UNIQUE constraint failed: kb_lineage_edges.edge_id" := by
          rw [insertEdges]
          rw [if_pos (decide_eq_true hmem)]
        rw [hx]
        exact ⟨rfl, rfl, fun _ => rfl⟩

/-- C7 witness: the concrete first derivation succeeds and re-derivation
leaves the table unchanged. -/
theorem lineage_rederive_no_duplicates_witness :
    c7Edges1 = [] ++ c7Es ∧
    lineageStoreAfter (writeLineageEdges demoStore "D1" c7Doc c7Edges1)
      c7Edges1 = c7Edges1 ∧
    (c7Es ≠ [] → writeLineageEdges demoStore "D1" c7Doc c7Edges1 =
      .error "UNIQUE constraint failed: kb_lineage_edges.edge_id") :=
  lineage_rederive_no_duplicates demoStore "D1" c7Doc [] c7Es c7Edges1
    (by decide)

/-- C10: for every published article `export_for_indexer` succeeds and
returns the projection; an absent or unparseable `tags_json` degrades to
the empty tag list instead of an error. -/
theorem export_graceful_tags (jsonLoads : String → Option Jv) (db : Db)
    (kbArticleId : String) (article : PublishedKBArticle)
    (h : getPublishedArticle db kbArticleId = .ok article) :
    ∃ rec, exportForIndexer jsonLoads db kbArticleId = .ok rec ∧
      rec.kb_article_id = article.kb_article_id ∧
      rec.title = article.title ∧
      rec.body_markdown = article.body_markdown ∧
      rec.module = article.module ∧
      rec.category = article.category ∧
      rec.source_type = article.source_type ∧
      rec.source_ticket_id = article.source_ticket_id ∧
      rec.version = article.current_version ∧
      rec.lineage_draft_id = article.latest_draft_id ∧
      (article.tags_json = none → rec.tags = Jv.arr []) ∧
      (∀ s, article.tags_json = some s → jsonLoads s = none →
        rec.tags = Jv.arr []) := by
  unfold exportForIndexer
  rw [h]
  simp only [bind, Except.bind, pure, Except.pure]
  refine ⟨_, rfl, rfl, rfl, rfl, rfl, rfl, rfl, rfl, rfl, rfl, ?_, ?_⟩
  · intro htags
    simp only [htags]
  · intro s htags hparse
    simp only [htags, hparse]

/-- C10 witness: exporting the malformed-tags article succeeds with the
projection and empty tags. -/
theorem export_graceful_tags_witness :
    ∃ rec, exportForIndexer (fun _ => none) c10Db "ART-2" = .ok rec ∧
      rec.kb_article_id = c10Article.kb_article_id ∧
      rec.title = c10Article.title ∧
      rec.body_markdown = c10Article.body_markdown ∧
      rec.module = c10Article.module ∧
      rec.category = c10Article.category ∧
      rec.source_type = c10Article.source_type ∧
      rec.source_ticket_id = c10Article.source_ticket_id ∧
      rec.version = c10Article.current_version ∧
      rec.lineage_draft_id = c10Article.latest_draft_id ∧
      (c10Article.tags_json = none → rec.tags = Jv.arr []) ∧
      (∀ s, c10Article.tags_json = some s → (fun _ => none : String → Option Jv) s = none →
        rec.tags = Jv.arr []) :=
  export_graceful_tags (fun _ => none) c10Db "ART-2" c10Article (by decide)

theorem rlmAssemble_verifier (store : List EvidenceUnit) (ticket : TicketRow)
    (conversations : List ConversationRow) (scripts : List ScriptRow)
    (placeholders : List PlaceholderRow) (collab : Option RlmCollab)
    (ticketId : String) :
    (rlmAssemble store ticket conversations scripts placeholders collab
      ticketId).2.verifier =
      some (verifyCaseJson (rlmAssemble store ticket conversations scripts
        placeholders collab ticketId).1 store) := rfl

theorem genSynthesis_rlm_verifier {env : GenEnv} {db : Db}
    {ticketId : String} {apiKey : Bool} {cj : CaseJSON} {body tag : String}
    {trace : Option RlmTrace}
    (h : genSynthesis env db ticketId apiKey "rlm" =
      .ok (cj, body, tag, trace)) :
    ∃ tr, trace = some tr ∧
      tr.verifier = some (verifyCaseJson cj db.evidence_units) := by
  unfold genSynthesis at h
  rw [if_pos rfl] at h
  unfold buildCaseJsonRlm at h
  rcases hl : loadTicketContext db.raw_tickets db.raw_conversations
      db.raw_scripts db.raw_placeholders ticketId with e | ⟨ticket,
      conversations, scripts, placeholders⟩ <;> rw [hl] at h
  · exact absurd h (by simp)
  · dsimp only at h
    have hver := rlmAssemble_verifier db.evidence_units ticket conversations
      scripts placeholders env.rlmCollab ticketId
    rcases hasm : rlmAssemble db.evidence_units ticket conversations scripts
        placeholders env.rlmCollab ticketId with ⟨cj0, tr0⟩
    rw [hasm] at h hver
    dsimp only at h hver
    by_cases hkey : apiKey
    · rw [if_pos hkey] at h
      rcases hq : env.quality cj0 with _ | b <;> rw [hq] at h
      · injection h with h'
        injection h' with hcj h2
        injection h2 with hbody h3
        injection h3 with htag htrace
        exact ⟨tr0, htrace.symm, by rw [← hcj]; exact hver⟩
      · injection h with h'
        injection h' with hcj h2
        injection h2 with hbody h3
        injection h3 with htag htrace
        exact ⟨tr0, htrace.symm, by rw [← hcj]; exact hver⟩
    · rw [if_neg hkey] at h
      injection h with h'
      injection h' with hcj h2
      injection h2 with hbody h3
      injection h3 with htag htrace
      exact ⟨tr0, htrace.symm, by rw [← hcj]; exact hver⟩

set_option maxHeartbeats 1000000 in
/-- C9 (intent model; see RESULTS for the constructor defect): the verifier
verdict is `ok = true` exactly when its error list is empty, and
`generate_kb_draft` persists the draft with status `draft` and returns the
document no matter what the verdict was, recording the verdict in the rlm
trace attached to the draft. -/
theorem verifier_advisory :
    (∀ (cj : CaseJSON) (store : List EvidenceUnit),
      (verifyCaseJson cj store).ok = true ↔
        (verifyCaseJson cj store).errors = []) ∧
    (∀ (env : GenEnv) (db : Db) (ticketId : String) (apiKey : Bool)
      (mode : String) (now : Nat) (d : KBDraft) (cj : CaseJSON) (db' : Db),
      generateKbDraft env db ticketId apiKey mode now = .ok (d, cj, db') →
      d.status = "draft" ∧ d ∈ db'.kb_drafts ∧
      (mode = "rlm" → ∃ tr, d.rlm_trace_json = some tr ∧
        tr.verifier = some (verifyCaseJson cj db.evidence_units))) := by
  constructor
  · intro cj store
    have hok : (verifyCaseJson cj store).ok =
        (verifyCaseJson cj store).errors.isEmpty := rfl
    rw [hok]
    exact List.isEmpty_iff
  · intro env db ticketId apiKey mode now d cj db' h
    unfold generateKbDraft at h
    rcases hsyn : genSynthesis env db ticketId apiKey mode with e |
      ⟨cj0, body0, tag0, trace0⟩ <;> rw [hsyn] at h
    · exact absurd h (by simp [bind, Except.bind])
    · simp only [bind, Except.bind] at h
      unfold supersedeOtherDrafts at h
      dsimp only at h
      rw [supersede_find_none] at h
      dsimp only [pure, Except.pure] at h
      injection h with h'
      injection h' with hd h2
      injection h2 with hcj hdb
      subst hd
      subst hcj
      subst hdb
      refine ⟨rfl, ?_, ?_⟩
      · exact List.mem_append.mpr (Or.inr (List.mem_singleton.mpr rfl))
      · intro hmode
        subst hmode
        obtain ⟨tr, htr, hver⟩ := genSynthesis_rlm_verifier hsyn
        exact ⟨tr, htr, hver⟩

theorem supersedeEvents_count (targets : List KBDraft) (base : Nat)
    (y : String) :
    countEvents (supersedeEvents base targets) "superseded" y =
      (targets.filter (fun d => d.draft_id = y)).length := by
  induction targets generalizing base with
  | nil => rfl
  | cons d rest ih =>
    rw [supersedeEvents]
    unfold countEvents at ih ⊢
    rw [List.filter_cons, List.filter_cons]
    by_cases h : d.draft_id = y
    · simp [mkEvent, h, ih]
    · simp [mkEvent, h, ih]

theorem countEvents_append (a b : List LearningEvent) (ty did : String) :
    countEvents (a ++ b) ty did = countEvents a ty did + countEvents b ty did := by
  unfold countEvents
  rw [List.filter_append, List.length_append]

theorem mem_active_after_supersede {l : List KBDraft} {tid keep : String}
    {rev : Option String} {reason : String} {now : Nat} {x : KBDraft}
    (hx : x ∈ activeDraftsFor
      (l.map (supersedeUpdate tid keep ["draft", "approved"] rev reason now))
      tid) :
    x ∈ l ∧ x.draft_id = keep := by
  unfold activeDraftsFor at hx
  have hm := List.mem_filter.mp hx
  obtain ⟨y, hy, himg⟩ := List.mem_map.mp hm.1
  have hact := hm.2
  simp only [Bool.and_eq_true, decide_eq_true_iff] at hact
  unfold supersedeUpdate at himg
  split at himg
  · rw [← himg] at hact
    simp at hact
  · subst himg
    rename_i hcond
    simp only [Bool.and_eq_true, decide_eq_true_iff, not_and, ne_eq,
      and_imp, not_not] at hcond
    refine ⟨hy, ?_⟩
    by_contra hne
    exact absurd hact.2 (hcond hact.1 hne)

theorem mem_active_after_supersede_other {l : List KBDraft}
    {tid keep : String} {rev : Option String} {reason : String} {now : Nat}
    {t : String} {x : KBDraft} (ht : t ≠ tid)
    (hx : x ∈ activeDraftsFor
      (l.map (supersedeUpdate tid keep ["draft", "approved"] rev reason now))
      t) :
    x ∈ activeDraftsFor l t := by
  unfold activeDraftsFor at hx ⊢
  have hm := List.mem_filter.mp hx
  obtain ⟨y, hy, himg⟩ := List.mem_map.mp hm.1
  have hact := hm.2
  unfold supersedeUpdate at himg
  split at himg
  · rw [← himg] at hact
    simp at hact
  · subst himg
    exact List.mem_filter.mpr ⟨hy, hact⟩

theorem superseded_row_mem {l : List KBDraft} {tid keep : String}
    {rev : Option String} {reason : String} {now : Nat} {d0 : KBDraft}
    (hd0 : d0 ∈ l) (ht : d0.ticket_id = tid) (hid : d0.draft_id ≠ keep)
    (hst : d0.status ∈ (["draft", "approved"] : List String)) :
    { d0 with
      status := "superseded", reviewer := rev, reviewed_at := some now,
      review_notes := some reason } ∈
      l.map (supersedeUpdate tid keep ["draft", "approved"] rev reason now) := by
  refine List.mem_map.mpr ⟨d0, hd0, ?_⟩
  unfold supersedeUpdate
  rw [if_pos (by simp [ht, hid, hst])]

theorem filter_id_unique {l : List KBDraft}
    (hnd : (l.map (·.draft_id)).Nodup) {d0 : KBDraft} (hd0 : d0 ∈ l)
    (p : KBDraft → Bool) (hp : p d0 = true) :
    l.filter (fun x => decide (x.draft_id = d0.draft_id) && p x) = [d0] := by
  induction l with
  | nil => simp at hd0
  | cons a rest ih =>
    rw [List.map_cons, List.nodup_cons] at hnd
    rw [List.filter_cons]
    rcases List.mem_cons.mp hd0 with rfl | hmem
    · rw [if_pos (by simp [hp])]
      congr 1
      rw [List.filter_eq_nil_iff]
      intro x hx
      intro hcx
      simp only [Bool.and_eq_true, decide_eq_true_iff] at hcx
      exact hnd.1 (hcx.1 ▸ List.mem_map_of_mem (·.draft_id) hx)
    · have hne : a.draft_id ≠ d0.draft_id := by
        intro hc
        exact hnd.1 (hc ▸ List.mem_map_of_mem (·.draft_id) hmem)
      rw [if_neg (by simp [hne])]
      exact ih hnd.2 hmem

theorem countEvents_single_ne (e : LearningEvent) (ty did : String)
    (h : e.event_type ≠ ty) : countEvents [e] ty did = 0 := by
  unfold countEvents
  rw [List.filter_cons]
  rw [if_neg (by simp [h])]
  rfl

theorem targets_count_one {l : List KBDraft}
    (hnd : (l.map (·.draft_id)).Nodup) {tid keep : String} {d0 : KBDraft}
    (hd0 : d0 ∈ l) (ht : d0.ticket_id = tid) (hid : d0.draft_id ≠ keep)
    (hst : d0.status ∈ (["draft", "approved"] : List String)) :
    ((supersedeTargets l tid keep ["draft", "approved"]).filter
        (fun d => d.draft_id = d0.draft_id)).length = 1 := by
  unfold supersedeTargets
  simp only [List.filter_filter]
  rw [filter_id_unique hnd hd0
    (fun d => d.ticket_id = tid && d.draft_id ≠ keep &&
      decide (d.status ∈ (["draft", "approved"] : List String)))
    (by simp [ht, hid, hst])]
  rfl

theorem activeDraftsFor_append (a b : List KBDraft) (tid : String) :
    activeDraftsFor (a ++ b) tid =
      activeDraftsFor a tid ++ activeDraftsFor b tid := by
  unfold activeDraftsFor
  rw [List.filter_append]

set_option maxHeartbeats 2000000 in
/-- C4: in the schema-complete model of `generate_kb_draft` (the real ORM
constructor call raises `TypeError`, see the C4 record), a successful
generation leaves at most one draft of the ticket in an active status
(`draft`/`approved`) — the newly created one — because every other active
draft of that ticket is rewritten to `superseded`, its retired row stored,
with exactly one new `superseded` audit event per retired draft. -/
theorem draft_supersession_invariant {env : GenEnv} {db : Db}
    {ticketId : String} {apiKey : Bool} {generationMode : String} {now : Nat}
    {cj : CaseJSON} {body tag : String} {trace : Option RlmTrace}
    (hsyn : genSynthesis env db ticketId apiKey generationMode =
      .ok (cj, body, tag, trace))
    (hfresh : freshUuid db.next_uuid ∉ db.kb_drafts.map (·.draft_id))
    (hnd : (db.kb_drafts.map (·.draft_id)).Nodup) :
    ∃ draft db',
      generateKbDraft env db ticketId apiKey generationMode now =
        .ok (draft, cj, db') ∧
      draft.status = "draft" ∧ draft.ticket_id = cj.ticket_id ∧
      (∀ x ∈ activeDraftsFor db'.kb_drafts cj.ticket_id, x = draft) ∧
      (∀ d0 ∈ db.kb_drafts, d0.ticket_id = cj.ticket_id →
        d0.status ∈ (["draft", "approved"] : List String) →
        ({ d0 with
            status := "superseded", reviewer := (none : Option String),
            reviewed_at := some now,
            review_notes :=
              some "Superseded by newer draft generation." } ∈
          db'.kb_drafts) ∧
        countEvents db'.events "superseded" d0.draft_id =
          countEvents db.events "superseded" d0.draft_id + 1) := by
  unfold generateKbDraft
  rw [hsyn]
  simp only [bind, Except.bind]
  unfold supersedeOtherDrafts
  dsimp only
  rw [supersede_find_none]
  dsimp only [pure, Except.pure]
  refine ⟨_, _, rfl, ?hs, ?htk, ?ha, ?hb⟩
  case hs => exact rfl
  case htk => exact rfl
  case ha =>
    intro x hx
    rw [activeDraftsFor_append] at hx
    rcases List.mem_append.mp hx with h | h
    · exfalso
      obtain ⟨hmem, hid⟩ := mem_active_after_supersede h
      exact hfresh (hid ▸ List.mem_map_of_mem (·.draft_id) hmem)
    · unfold activeDraftsFor at h
      simpa using List.mem_of_mem_filter h
  case hb =>
    intro d0 hd0 ht hst
    have hneq : d0.draft_id ≠ freshUuid db.next_uuid := fun hc =>
      hfresh (hc ▸ List.mem_map_of_mem (·.draft_id) hd0)
    refine ⟨List.mem_append_left _ (superseded_row_mem hd0 ht hneq hst), ?_⟩
    rw [countEvents_append, countEvents_append, supersedeEvents_count,
      targets_count_one hnd hd0 ht hneq hst,
      countEvents_single_ne _ _ _ (by simp [mkEvent])]

set_option maxHeartbeats 2000000 in
/-- C4 witness: the invariant at the demo fixture — generating a new CS-1
draft supersedes the prior active CS-1 draft and logs one `superseded`
event for it. -/
theorem draft_supersession_invariant_witness :
    ∃ draft db',
      generateKbDraft demoEnv c4Db "CS-1" false "rlm" 7 =
        .ok (draft, c4SynOut.1, db') ∧
      draft.status = "draft" ∧ draft.ticket_id = c4SynOut.1.ticket_id ∧
      (∀ x ∈ activeDraftsFor db'.kb_drafts c4SynOut.1.ticket_id, x = draft) ∧
      (∀ d0 ∈ c4Db.kb_drafts, d0.ticket_id = c4SynOut.1.ticket_id →
        d0.status ∈ (["draft", "approved"] : List String) →
        ({ d0 with
            status := "superseded", reviewer := (none : Option String),
            reviewed_at := some 7,
            review_notes :=
              some "Superseded by newer draft generation." } ∈
          db'.kb_drafts) ∧
        countEvents db'.events "superseded" d0.draft_id =
          countEvents c4Db.events "superseded" d0.draft_id + 1) :=
  @draft_supersession_invariant demoEnv c4Db "CS-1" false "rlm" 7
    c4SynOut.1 c4SynOut.2.1 c4SynOut.2.2.1 c4SynOut.2.2.2
    (by rfl) (by decide) (by decide)
